import Mathlib

/-!
# Pong: a shallow embedding of `src/main.cpp`

The simulation (`struct PongGame` and the geometry primitives it uses) is
translated function by function.  C `float` values are modelled as elements of
an arbitrary linearly ordered field `K` (exact arithmetic, no rounding, no NaN);
the definitions are executable for `K = ℚ` and are read at `K = ℝ` where a
statement speaks about real exponentiation or square roots.  C `int` values
(court size, scores) are modelled as `Int`; signed overflow of a score counter
is undefined behaviour in C++ and lies outside the model.

The mode switch of `struct UI` and one frame of each of the two loops of
`main` are translated as functions from the frame's inputs (keys, frame rate,
random numbers) to an `Outcome`, which records a failed `assert` or an `exit`.

The two functions of the C math library the program calls (`sqrtf`, through
`Vector2Normalize`, and `powf`) are parameters, packed in `LibM`.  The two
raylib routines `Vector2Normalize` and `CheckCollisionCircleRec` are external
library code; they are transcribed from raymath/raylib.
-/

namespace Pong

/-! ## Data model -/

/-- The C math library functions used by the program. -/
structure LibM (K : Type) where
  /-- Square root, `sqrtf`. -/
  sqrtf : K → K
  /-- Exponentiation, `powf base exponent`. -/
  powf : K → K → K

/-- The raylib `Color`: four 8-bit channels. -/
structure Color where
  r : Nat
  g : Nat
  b : Nat
  a : Nat
deriving DecidableEq, Repr

/-- The raylib constant `RAYWHITE`. -/
def RAYWHITE : Color := ⟨245, 245, 245, 255⟩

/-- The raylib constant `LIGHTGRAY`. -/
def LIGHTGRAY : Color := ⟨200, 200, 200, 255⟩

/-- The raylib `Vector2`. -/
structure Vector2 (K : Type) where
  x : K
  y : K
deriving DecidableEq, Repr

/-- The raylib `Rectangle`: top-left corner, width and height. -/
structure Rectangle (K : Type) where
  x : K
  y : K
  width : K
  height : K
deriving DecidableEq, Repr

/-- The `struct Ball` of the program. -/
structure Ball (K : Type) where
  color : Color
  center : Vector2 K
  velocity : Vector2 K
  radius : K
  speed : K
  isAttachedToPlayerPaddle : Bool
deriving DecidableEq, Repr

/-- The `struct Wall` of the program (paddles and colliders are walls too). -/
structure Wall (K : Type) where
  rect : Rectangle K
  color : Color
deriving DecidableEq, Repr

/-- The `struct PongGame` of the program, every data member included. -/
structure PongGame (K : Type) where
  courtWidth : Int
  courtHeight : Int
  topWall : Wall K
  bottomWall : Wall K
  leftCollider : Wall K
  rightCollider : Wall K
  leftPaddle : Wall K
  rightPaddle : Wall K
  ball : Ball K
  gameStarted : Bool
  rightPlayerScore : Int
  leftPlayerScore : Int
  paddleSpeed : K
  aiError : K
  targetedYPos : K
  initialBallSpeed : K
  ballSpeedIncreaseRate : K
  wallColor : Color
  colliderColor : Color
  paddleColor : Color
  selectedColor : Color
  ballColor : Color
deriving DecidableEq, Repr

variable {K : Type} [LinearOrderedField K]

/-! ## Library routines -/

/-- The raymath routine `Vector2Normalize`: the zero vector when the length is
not positive, the vector scaled by the inverse of its length otherwise. -/
def Vector2Normalize (lib : LibM K) (v : Vector2 K) : Vector2 K :=
  let length := lib.sqrtf (v.x * v.x + v.y * v.y)
  if length > 0 then
    let ilength := 1 / length
    ⟨v.x * ilength, v.y * ilength⟩
  else ⟨0, 0⟩

/-- The raylib routine `CheckCollisionCircleRec`: does the disc of the given
centre and radius meet the rectangle. -/
def CheckCollisionCircleRec (center : Vector2 K) (radius : K) (rec : Rectangle K) : Bool :=
  let recCenterX := rec.x + rec.width / 2
  let recCenterY := rec.y + rec.height / 2
  let dx := |center.x - recCenterX|
  let dy := |center.y - recCenterY|
  if dx > rec.width / 2 + radius then false
  else if dy > rec.height / 2 + radius then false
  else if dx ≤ rec.width / 2 then true
  else if dy ≤ rec.height / 2 then true
  else
    let cornerDistanceSq :=
      (dx - rec.width / 2) * (dx - rec.width / 2)
        + (dy - rec.height / 2) * (dy - rec.height / 2)
    decide (cornerDistanceSq ≤ radius * radius)

/-! ## The program -/

/-- `Wall::move`: translate the rectangle by `v`. -/
def Wall.move (w : Wall K) (v : Vector2 K) : Wall K :=
  { w with rect := { w.rect with x := w.rect.x + v.x, y := w.rect.y + v.y } }

/-- `percentOf(x, t)`: `t` percent of `x`. -/
def percentOf (x t : K) : K := x / 100 * t

/-- `PongGame::positionWalls`: record the court size and derive the two walls
and the two scoring colliders from it. -/
def positionWalls (width height : Int) (g : PongGame K) : PongGame K :=
  let g := { g with courtWidth := width, courtHeight := height }
  let g := { g with topWall := { g.topWall with rect :=
    { x := 0, y := 0, width := (g.courtWidth : K),
      height := percentOf (g.courtHeight : K) 1 } } }
  let g := { g with bottomWall := { g.bottomWall with rect :=
    { x := 0, y := (g.courtHeight : K) - percentOf (g.courtHeight : K) 1,
      width := (g.courtWidth : K), height := percentOf (g.courtHeight : K) 1 } } }
  let g := { g with leftCollider := { g.leftCollider with rect :=
    { x := 0, y := 0, width := percentOf (g.courtWidth : K) 1,
      height := (g.courtHeight : K) } } }
  { g with rightCollider := { g.rightCollider with rect :=
    { x := (g.courtWidth : K) - percentOf (g.courtWidth : K) 1, y := 0,
      width := percentOf (g.courtWidth : K) 1, height := (g.courtHeight : K) } } }

/-- The constructor `PongGame(width, height)`.  Members the constructor does not
assign (`gameStarted`, `targetedYPos`, the ball centre, the paddles' `y`, ...)
keep whatever `mem` holds; the in-class default initialisers run first. -/
def newPongGame (mem : PongGame K) (width height : Int) : PongGame K :=
  let g : PongGame K :=
    { mem with
      paddleSpeed := 500, aiError := 0, initialBallSpeed := 500,
      ballSpeedIncreaseRate := 10001 / 10000,
      wallColor := ⟨160, 186, 168, 255⟩, colliderColor := ⟨152, 12, 13, 10⟩,
      paddleColor := ⟨250, 147, 89, 255⟩, selectedColor := ⟨230, 180, 110, 255⟩,
      ballColor := LIGHTGRAY }
  let g := positionWalls width height g
  let g := { g with rightPlayerScore := 0, leftPlayerScore := 0 }
  let g := { g with ball := { g.ball with
    radius := percentOf (g.courtWidth : K) 1, velocity := ⟨0, 0⟩, speed := 0,
    color := g.ballColor } }
  let g := { g with leftPaddle :=
    { rect := { g.leftPaddle.rect with
        x := percentOf (g.courtWidth : K) 2,
        width := percentOf (g.courtWidth : K) 1,
        height := percentOf (g.courtHeight : K) 15 },
      color := RAYWHITE } }
  let g := { g with rightPaddle := { g.rightPaddle with rect := { g.rightPaddle.rect with
    width := percentOf (g.courtWidth : K) 1,
    height := percentOf (g.courtHeight : K) 15 } } }
  let g := { g with rightPaddle :=
    { rect := { g.rightPaddle.rect with
        x := (g.courtWidth : K) - percentOf (g.courtWidth : K) 2 - g.rightPaddle.rect.width },
      color := RAYWHITE } }
  { g with
    topWall := { g.topWall with color := g.wallColor },
    bottomWall := { g.bottomWall with color := g.wallColor },
    leftCollider := { g.leftCollider with color := g.colliderColor },
    rightCollider := { g.rightCollider with color := g.colliderColor } }

/-- `PongGame::movePaddle`: move the paddle by `y`, and put it back where it
was when it then sticks out of the court. -/
def movePaddle (g : PongGame K) (paddle : Wall K) (y : K) : Wall K :=
  let oldY := paddle.rect.y
  let paddle := paddle.move ⟨0, y⟩
  if paddle.rect.y < 0 ∨ paddle.rect.y + paddle.rect.height > (g.courtHeight : K) then
    { paddle with rect := { paddle.rect with y := oldY } }
  else paddle

/-- `PongGame::moveOpponentPaddleTowardsY`. -/
def moveOpponentPaddleTowardsY (g : PongGame K) (opponentPaddle : Wall K)
    (targetY speed : K) : Wall K :=
  let paddleCenterY := opponentPaddle.rect.y + (1 / 2) * opponentPaddle.rect.height
  if paddleCenterY > targetY then movePaddle g opponentPaddle (-speed)
  else movePaddle g opponentPaddle speed

/-- `PongGame::initMatch`. -/
def initMatch (g : PongGame K) : PongGame K :=
  let g := { g with gameStarted := false }
  let g := { g with rightPaddle := { g.rightPaddle with rect := { g.rightPaddle.rect with
    y := percentOf (g.courtHeight : K) 50 - g.rightPaddle.rect.height / 2 } } }
  let g := { g with leftPaddle := { g.leftPaddle with rect := { g.leftPaddle.rect with
    y := percentOf (g.courtHeight : K) 50 - g.leftPaddle.rect.height / 2 } } }
  let g := { g with ball := { g.ball with
    center := { g.ball.center with x := (g.courtWidth : K) / 2 } } }
  { g with ball := { g.ball with
    center := { g.ball.center with y := (g.courtHeight : K) / 2 } } }

/-- `PongGame::calculateAiYPos`. -/
def calculateAiYPos (error : K) (b : Ball K) (paddleXPos : K) : K :=
  let gradient := b.velocity.y / b.velocity.x
  let c := b.center.y - gradient * b.center.x
  let y := gradient * paddleXPos + c
  y + error

/-- `PongGame::startGame`. -/
def startGame (lib : LibM K) (randNum1 randNum2 : K) (g : PongGame K) : PongGame K :=
  let r1 := randNum1
  let r2 := randNum2
  -- `if( r1 > r2 ){ float temp = r1; r2 = r1; r2 = temp; }`
  let r2 := if r1 > r2 then (let temp := r1; let _r2 := r1; temp) else r2
  let g := { g with ball := { g.ball with velocity := Vector2Normalize lib ⟨r1, r2⟩ } }
  let g := { g with ball := { g.ball with speed := g.initialBallSpeed } }
  { g with gameStarted := true }

/-! ### `PongGame::step`, one block of the body per definition -/

/-- Lines 242-245: renormalise the velocity and integrate the position. -/
def stepIntegrate (lib : LibM K) (dt : K) (g : PongGame K) : PongGame K :=
  let g := { g with ball := { g.ball with velocity := Vector2Normalize lib g.ball.velocity } }
  let g := { g with ball := { g.ball with center := { g.ball.center with
    x := g.ball.center.x + g.ball.velocity.x * g.ball.speed * dt } } }
  { g with ball := { g.ball with center := { g.ball.center with
    y := g.ball.center.y + g.ball.velocity.y * g.ball.speed * dt } } }

/-- Lines 247-259: the two score conditions, one after the other. -/
def stepScore (g : PongGame K) : PongGame K :=
  let g :=
    if CheckCollisionCircleRec g.ball.center g.ball.radius g.leftCollider.rect then
      initMatch { g with rightPlayerScore := g.rightPlayerScore + 1 }
    else g
  if CheckCollisionCircleRec g.ball.center g.ball.radius g.rightCollider.rect then
    initMatch { g with leftPlayerScore := g.leftPlayerScore + 1 }
  else g

/-- Lines 261-273: wall bounce, then paddle bounce. -/
def stepCollide (g : PongGame K) : PongGame K :=
  let g :=
    if CheckCollisionCircleRec g.ball.center g.ball.radius g.topWall.rect
        || CheckCollisionCircleRec g.ball.center g.ball.radius g.bottomWall.rect then
      { g with ball := { g.ball with
        velocity := { g.ball.velocity with y := g.ball.velocity.y * -1 } } }
    else g
  if CheckCollisionCircleRec g.ball.center g.ball.radius g.rightPaddle.rect
      || CheckCollisionCircleRec g.ball.center g.ball.radius g.leftPaddle.rect then
    { g with ball := { g.ball with
      velocity := { g.ball.velocity with x := g.ball.velocity.x * -1 } } }
  else g

/-- Lines 275-277: aim the opponent (left) paddle and move it. -/
def stepOpponent (dt : K) (g : PongGame K) : PongGame K :=
  let g := { g with
    targetedYPos := calculateAiYPos (0 : K) g.ball (g.leftPaddle.rect.x + g.leftPaddle.rect.width) }
  { g with
    leftPaddle := moveOpponentPaddleTowardsY g g.leftPaddle g.targetedYPos (g.paddleSpeed * dt) }

/-- Lines 279-280: the speed ramp. -/
def stepRamp (lib : LibM K) (g : PongGame K) : PongGame K :=
  { g with ball := { g.ball with speed := lib.powf g.ball.speed g.ballSpeedIncreaseRate } }

/-- `PongGame::step`: nothing unless a rally is running; otherwise the five
blocks in the order of the source. -/
def step (lib : LibM K) (dt : K) (g : PongGame K) : PongGame K :=
  if g.gameStarted then
    stepRamp lib (stepOpponent dt (stepCollide (stepScore (stepIntegrate lib dt g))))
  else g

/-! ## Presentation and application loop -/

/-- How a routine that may stop the program ends: normally with a value, on a
failed `assert`, or through `exit`. -/
inductive Outcome (α : Type) where
  | completed (a : α)
  | assertFailed (msg : String)
  | exited (code : Int)
deriving DecidableEq, Repr

/-- Sequencing: run `f` on the value of a routine that completed. -/
def Outcome.bind {α β : Type} (o : Outcome α) (f : α → Outcome β) : Outcome β :=
  match o with
  | .completed a => f a
  | .assertFailed msg => .assertFailed msg
  | .exited code => .exited code

/-- The `enum Mode` of `struct UI`. -/
inductive Mode where
  | GAME_SCOREBOARD
  | GAME_DEBUG
  | MAINMENU
  | MODECOUNT
deriving DecidableEq, Repr

/-- The `struct UI`: the mode and the table of mode names. -/
structure UI where
  mode : Mode
  modeNames : List String
deriving DecidableEq, Repr

/-- The constructor `UI( Mode initializingMode )`, also used by the assignment
`gameUI = UI::Mode::...`. -/
def UI.ofMode (initializingMode : Mode) : UI :=
  { mode := initializingMode,
    modeNames := ["GAME_SCOREBOARD", "GAME_DEBUG VIEW", "MAINMENU"] }

/-- `UI::toggleScoreboardMenuModes`: the `assert` first, then the two-way flip. -/
def UI.toggleScoreboardMenuModes (ui : UI) : Outcome UI :=
  if ui.mode = Mode.GAME_SCOREBOARD ∨ ui.mode = Mode.GAME_DEBUG then
    if ui.mode = Mode.GAME_SCOREBOARD then .completed { ui with mode := Mode.GAME_DEBUG }
    else if ui.mode = Mode.GAME_DEBUG then .completed { ui with mode := Mode.GAME_SCOREBOARD }
    else .completed ui
  else .assertFailed "mode == GAME_SCOREBOARD || mode == GAME_DEBUG"

/-- Conversion of an `int` to `size_t` (unsigned, 64 bits). -/
def intToSize (i : Int) : Nat := (i % 2 ^ 64).toNat

/-- Conversion of a `size_t` to `int` (signed, 32 bits). -/
def sizeToInt (n : Nat) : Int :=
  let m : Int := (n : Int) % 2 ^ 32
  if m < 2 ^ 31 then m else m - 2 ^ 32

/-- `UI::drawMenuUI`, without the draw calls: the three `assert`s, the
wraparound of the selection, and the option labels with the selection marker
appended. -/
def UI.drawMenuUI (_ui : UI) (currentSelection : Nat) (menuOptions : List String) (resX resY : Int) :
    Outcome (List String) :=
  if ¬ menuOptions.length > 0 then .assertFailed "menuOptions.size() > 0"
  else if ¬ resX > 0 then .assertFailed "resX > 0"
  else if ¬ resY > 0 then .assertFailed "resY > 0"
  else
    -- `currentSelection < 0` is never true of an unsigned number
    let currentSelection :=
      if currentSelection ≥ menuOptions.length then 0 else currentSelection
    .completed (menuOptions.set currentSelection
      (menuOptions.getD currentSelection "" ++ "\t <"))

/-- `toggleFullScreenAndResizeWorld`, the part that acts on the world; the
answer of `IsWindowFullscreen()` is an argument, `windowedDim` and
`fullscreenDim` are both 1600 x 900. -/
def toggleFullScreenAndResizeWorld (isWindowFullscreen : Bool) (world : PongGame K) :
    PongGame K :=
  let newWidth : Int := if isWindowFullscreen then 1600 else 1600
  let newHeight : Int := if isWindowFullscreen then 900 else 900
  positionWalls newWidth newHeight world

/-- What one frame of the game loop reads from the outside: the frame rate,
the keys, the window state and the two random numbers drawn on `SPACE`. -/
structure GameInput (K : Type) where
  fps : Int
  keyG : Bool
  keyF11 : Bool
  keySpace : Bool
  keyUp : Bool
  keyDown : Bool
  isWindowFullscreen : Bool
  randNum1 : K
  randNum2 : K

/-- What one frame of the menu loop reads from the outside. -/
structure MenuInput where
  keyF11 : Bool
  keyDown : Bool
  keyUp : Bool
  keyEnter : Bool
  isWindowFullscreen : Bool
deriving DecidableEq, Repr

/-- The lambda `mainMenuLoop` of `main`, one frame; `currentChoice` is its
`static int`.  The draw calls are left out, the `assert`s are kept. -/
def mainMenuLoop (inp : MenuInput) (currentChoice : Int) (gameUI : UI) (world : PongGame K) :
    Outcome (Int × UI × PongGame K) :=
  let mainMenuOptions : List String := ["Start", "Exit"]
  let world :=
    if inp.keyF11 then toggleFullScreenAndResizeWorld inp.isWindowFullscreen world else world
  let currentChoice := if inp.keyDown then currentChoice + 1 else currentChoice
  let currentChoice := if inp.keyUp then currentChoice - 1 else currentChoice
  let afterEnter : Outcome UI :=
    if inp.keyEnter then
      if currentChoice = 0 then .completed (UI.ofMode Mode.GAME_SCOREBOARD)
      else if currentChoice = 1 then .exited 0
      else .assertFailed "Invalid option"
    else .completed gameUI
  afterEnter.bind fun gameUI =>
    -- `currentChoice %= mainMenuOptions.size();`
    let currentChoice := sizeToInt (intToSize currentChoice % mainMenuOptions.length)
    (gameUI.drawMenuUI (intToSize currentChoice) mainMenuOptions
        world.courtWidth world.courtHeight).bind fun _ =>
      .completed (currentChoice, gameUI, world)

/-- The lambda `mainGameLoop` of `main`, one frame.  The draw calls are left
out; `deltaTime` is `1 / GetFPS()`. -/
def mainGameLoop (lib : LibM K) (inp : GameInput K) (gameUI : UI) (world : PongGame K) :
    Outcome (UI × PongGame K) :=
  let deltaTime : K := 1 / (inp.fps : K)
  let gameUI :=
    if world.leftPlayerScore ≥ 5 ∨ world.rightPlayerScore ≥ 5 then UI.ofMode Mode.MAINMENU
    else gameUI
  (if inp.keyG then gameUI.toggleScoreboardMenuModes else .completed gameUI).bind fun gameUI =>
    let world :=
      if inp.keyF11 then toggleFullScreenAndResizeWorld inp.isWindowFullscreen world else world
    let world :=
      if inp.keySpace && !world.gameStarted then startGame lib inp.randNum1 inp.randNum2 world
      else world
    let world :=
      if inp.keyUp then
        { world with rightPaddle := movePaddle world world.rightPaddle (-world.paddleSpeed * deltaTime) }
      else world
    let world :=
      if inp.keyDown then
        { world with rightPaddle := movePaddle world world.rightPaddle (world.paddleSpeed * deltaTime) }
      else world
    .completed (gameUI, step lib deltaTime world)

end Pong

namespace Pong

variable {K : Type} [LinearOrderedField K]

/-! ## Auxiliary definitions used to state the properties -/

/-- Two games have the same geometry: court size, the rectangles of the walls
and of the scoring colliders, the horizontal placement and the size of both
paddles, and the radius of the ball. -/
def SameGeometry (a b : PongGame K) : Prop :=
  a.courtWidth = b.courtWidth ∧ a.courtHeight = b.courtHeight
  ∧ a.topWall.rect = b.topWall.rect ∧ a.bottomWall.rect = b.bottomWall.rect
  ∧ a.leftCollider.rect = b.leftCollider.rect ∧ a.rightCollider.rect = b.rightCollider.rect
  ∧ a.leftPaddle.rect.x = b.leftPaddle.rect.x
  ∧ a.leftPaddle.rect.width = b.leftPaddle.rect.width
  ∧ a.leftPaddle.rect.height = b.leftPaddle.rect.height
  ∧ a.rightPaddle.rect.x = b.rightPaddle.rect.x
  ∧ a.rightPaddle.rect.width = b.rightPaddle.rect.width
  ∧ a.rightPaddle.rect.height = b.rightPaddle.rect.height
  ∧ a.ball.radius = b.ball.radius

/-- A block of memory with every number zero and every flag false, used as the
content of the members a constructor leaves unassigned in concrete examples. -/
def zeroGame : PongGame K :=
  let c : Color := ⟨0, 0, 0, 0⟩
  let w : Wall K := ⟨⟨0, 0, 0, 0⟩, c⟩
  { courtWidth := 0, courtHeight := 0, topWall := w, bottomWall := w,
    leftCollider := w, rightCollider := w, leftPaddle := w, rightPaddle := w,
    ball := ⟨c, ⟨0, 0⟩, ⟨0, 0⟩, 0, 0, false⟩, gameStarted := false,
    rightPlayerScore := 0, leftPlayerScore := 0, paddleSpeed := 0, aiError := 0,
    targetedYPos := 0, initialBallSpeed := 0, ballSpeedIncreaseRate := 0,
    wallColor := c, colliderColor := c, paddleColor := c, selectedColor := c,
    ballColor := c }

/-- The game as `main` sets it up: `PongGame world( 1600, 900 ); world.initMatch();`. -/
def mainWorld : PongGame K := initMatch (newPongGame zeroGame 1600 900)

/-- A running rally on the 1600 x 900 court with the ball next to the left
scoring collider and flying to the left. -/
def rallyNearLeft : PongGame K :=
  { (mainWorld : PongGame K) with
    gameStarted := true,
    ball := { (mainWorld : PongGame K).ball with
      center := ⟨33, 100⟩, velocity := ⟨-1, 0⟩, speed := 500 } }

/-- A running rally on the 1600 x 900 court with the ball just below the top
wall and flying up and to the right. -/
def rallyNearTop : PongGame K :=
  { (mainWorld : PongGame K) with
    gameStarted := true,
    ball := { (mainWorld : PongGame K).ball with
      center := ⟨800, 28⟩, velocity := ⟨3 / 5, -4 / 5⟩, speed := 500 } }

/-- A running rally on the 1600 x 900 court with the ball just left of the
right paddle and flying down and to the right. -/
def rallyNearRightPaddle : PongGame K :=
  { (mainWorld : PongGame K) with
    gameStarted := true,
    ball := { (mainWorld : PongGame K).ball with
      center := ⟨1534, 450⟩, velocity := ⟨4 / 5, 3 / 5⟩, speed := 500 } }

/-- A running rally on the 1600 x 900 court with the ball in the middle, flying
horizontally to the right at speed 500. -/
def rallyAtCentre : PongGame K :=
  { (mainWorld : PongGame K) with
    gameStarted := true,
    ball := { (mainWorld : PongGame K).ball with
      center := ⟨800, 450⟩, velocity := ⟨1, 0⟩, speed := 500 } }

/-- The states the program can be in: the world as `main` builds it
(`PongGame(width, height)` then `initMatch()`), and from there any sequence of
`startGame`, `step`, `movePaddle` (on either paddle) and `initMatch` calls. -/
inductive Reachable (lib : LibM K) (mem : PongGame K) (width height : Int) :
    PongGame K → Prop
  | init : Reachable lib mem width height (initMatch (newPongGame mem width height))
  | startGame (r1 r2 : K) {g : PongGame K} :
      Reachable lib mem width height g →
      Reachable lib mem width height (startGame lib r1 r2 g)
  | step (dt : K) {g : PongGame K} :
      Reachable lib mem width height g → Reachable lib mem width height (step lib dt g)
  | moveRight (y : K) {g : PongGame K} :
      Reachable lib mem width height g →
      Reachable lib mem width height { g with rightPaddle := movePaddle g g.rightPaddle y }
  | moveLeft (y : K) {g : PongGame K} :
      Reachable lib mem width height g →
      Reachable lib mem width height { g with leftPaddle := movePaddle g g.leftPaddle y }
  | initMatch {g : PongGame K} :
      Reachable lib mem width height g → Reachable lib mem width height (initMatch g)

/-- What every reachable state satisfies about the ball speed: the two speed
parameters have their initial values, the speed is 0 (no rally started yet) or
at least 500, and it is at least 500 while a rally runs. -/
def SpeedInv (g : PongGame K) : Prop :=
  g.ballSpeedIncreaseRate = 10001 / 10000 ∧ g.initialBallSpeed = 500
  ∧ (g.ball.speed = 0 ∨ 500 ≤ g.ball.speed)
  ∧ (g.gameStarted = true → 500 ≤ g.ball.speed)

/-- Both paddles lie within the court vertically, the court has the height
given to the constructor and the paddles the height the constructor gave them. -/
def PaddleInv (height : Int) (g : PongGame K) : Prop :=
  g.courtHeight = height
  ∧ g.leftPaddle.rect.height = percentOf (height : K) 15
  ∧ g.rightPaddle.rect.height = percentOf (height : K) 15
  ∧ (0 ≤ g.leftPaddle.rect.y ∧ g.leftPaddle.rect.y + g.leftPaddle.rect.height ≤ (g.courtHeight : K))
  ∧ (0 ≤ g.rightPaddle.rect.y
      ∧ g.rightPaddle.rect.y + g.rightPaddle.rect.height ≤ (g.courtHeight : K))

set_option linter.unusedSectionVars false

/-! ## Lemmas on the geometry built by the constructor -/

theorem newPongGame_courtWidth (mem : PongGame K) (w h : Int) :
    (newPongGame mem w h).courtWidth = w := rfl

theorem newPongGame_courtHeight (mem : PongGame K) (w h : Int) :
    (newPongGame mem w h).courtHeight = h := rfl

theorem newPongGame_leftCollider (mem : PongGame K) (w h : Int) :
    (newPongGame mem w h).leftCollider.rect = ⟨0, 0, percentOf (w : K) 1, (h : K)⟩ := rfl

theorem newPongGame_rightCollider (mem : PongGame K) (w h : Int) :
    (newPongGame mem w h).rightCollider.rect
      = ⟨(w : K) - percentOf (w : K) 1, 0, percentOf (w : K) 1, (h : K)⟩ := rfl

theorem newPongGame_radius (mem : PongGame K) (w h : Int) :
    (newPongGame mem w h).ball.radius = percentOf (w : K) 1 := rfl

/-- A ball in the middle of the court does not touch the right collider. -/
theorem centre_misses_rightCollider (W H : K) (hW : 0 < W) :
    CheckCollisionCircleRec (⟨W / 2, H / 2⟩ : Vector2 K) (percentOf W 1)
      ⟨W - percentOf W 1, 0, percentOf W 1, H⟩ = false := by
  have hd : |W / 2 - (W - W / 100 * 1 + W / 100 * 1 / 2)| > W / 100 * 1 / 2 + W / 100 * 1 := by
    have e : W / 2 - (W - W / 100 * 1 + W / 100 * 1 / 2) = -(W * (99 / 200)) := by ring
    rw [e, abs_neg, abs_of_pos (by positivity)]
    linarith
  unfold CheckCollisionCircleRec percentOf
  dsimp only
  rw [if_pos hd]

/-- A ball that touches the left collider has its centre in the left fiftieth
of the court. -/
theorem touch_leftCollider_bound (c : Vector2 K) (W H : K)
    (h : CheckCollisionCircleRec c (percentOf W 1) ⟨0, 0, percentOf W 1, H⟩ = true) :
    c.x ≤ W / 50 := by
  by_contra hc
  push_neg at hc
  have hd : |c.x - (0 + W / 100 * 1 / 2)| > W / 100 * 1 / 2 + W / 100 * 1 :=
    lt_of_lt_of_le (by linarith) (le_abs_self _)
  unfold CheckCollisionCircleRec percentOf at h
  dsimp only at h
  rw [if_pos hd] at h
  exact Bool.false_ne_true h

/-- A ball whose centre is in the left fiftieth of the court does not touch the
right collider. -/
theorem left_misses_rightCollider (c : Vector2 K) (W H : K) (hW : 0 < W)
    (hx : c.x ≤ W / 50) :
    CheckCollisionCircleRec c (percentOf W 1) ⟨W - percentOf W 1, 0, percentOf W 1, H⟩
      = false := by
  have hd : |c.x - (W - W / 100 * 1 + W / 100 * 1 / 2)| > W / 100 * 1 / 2 + W / 100 * 1 :=
    lt_of_lt_of_le (by linarith) (neg_le_abs _)
  unfold CheckCollisionCircleRec percentOf
  dsimp only
  rw [if_pos hd]

/-! ## Frame lemmas for the blocks of `step` -/

theorem initMatch_scores (g : PongGame K) :
    (initMatch g).rightPlayerScore = g.rightPlayerScore
      ∧ (initMatch g).leftPlayerScore = g.leftPlayerScore := ⟨rfl, rfl⟩

theorem initMatch_center (g : PongGame K) :
    (initMatch g).ball.center = ⟨(g.courtWidth : K) / 2, (g.courtHeight : K) / 2⟩ := rfl

theorem stepCollide_scores (g : PongGame K) :
    (stepCollide g).rightPlayerScore = g.rightPlayerScore
      ∧ (stepCollide g).leftPlayerScore = g.leftPlayerScore := by
  unfold stepCollide
  dsimp only
  split_ifs <;> exact ⟨rfl, rfl⟩

theorem stepOpponent_scores (dt : K) (g : PongGame K) :
    (stepOpponent dt g).rightPlayerScore = g.rightPlayerScore
      ∧ (stepOpponent dt g).leftPlayerScore = g.leftPlayerScore := ⟨rfl, rfl⟩

theorem stepRamp_scores (lib : LibM K) (g : PongGame K) :
    (stepRamp lib g).rightPlayerScore = g.rightPlayerScore
      ∧ (stepRamp lib g).leftPlayerScore = g.leftPlayerScore := ⟨rfl, rfl⟩

/-- The scores after a step of a running rally are those after the score block. -/
theorem step_scores (lib : LibM K) (dt : K) (g : PongGame K) (hs : g.gameStarted = true) :
    (step lib dt g).rightPlayerScore = (stepScore (stepIntegrate lib dt g)).rightPlayerScore
      ∧ (step lib dt g).leftPlayerScore
          = (stepScore (stepIntegrate lib dt g)).leftPlayerScore := by
  unfold step
  rw [if_pos hs]
  exact ⟨((stepRamp_scores lib _).1.trans (stepOpponent_scores dt _).1).trans
            (stepCollide_scores _).1,
         ((stepRamp_scores lib _).2.trans (stepOpponent_scores dt _).2).trans
            (stepCollide_scores _).2⟩

/-- When the ball touches neither scoring collider, the score block does nothing. -/
theorem stepScore_no_touch (g : PongGame K)
    (hl : CheckCollisionCircleRec g.ball.center g.ball.radius g.leftCollider.rect = false)
    (hr : CheckCollisionCircleRec g.ball.center g.ball.radius g.rightCollider.rect = false) :
    stepScore g = g := by
  unfold stepScore
  dsimp only
  rw [hl]
  simp only [Bool.false_eq_true, if_false]
  rw [hr]
  simp only [Bool.false_eq_true, if_false]

/-- A step of a running rally in which the moved ball touches neither scoring
collider: the score block drops out. -/
theorem step_no_score (lib : LibM K) (dt : K) (g : PongGame K) (hs : g.gameStarted = true)
    (hl : CheckCollisionCircleRec (stepIntegrate lib dt g).ball.center
      (stepIntegrate lib dt g).ball.radius (stepIntegrate lib dt g).leftCollider.rect = false)
    (hr : CheckCollisionCircleRec (stepIntegrate lib dt g).ball.center
      (stepIntegrate lib dt g).ball.radius (stepIntegrate lib dt g).rightCollider.rect = false) :
    step lib dt g
      = stepRamp lib (stepOpponent dt (stepCollide (stepIntegrate lib dt g))) := by
  unfold step
  rw [if_pos hs, stepScore_no_touch _ hl hr]

theorem stepIntegrate_velocity (lib : LibM K) (dt : K) (g : PongGame K) :
    (stepIntegrate lib dt g).ball.velocity = Vector2Normalize lib g.ball.velocity := rfl

theorem stepIntegrate_center (lib : LibM K) (dt : K) (g : PongGame K) :
    (stepIntegrate lib dt g).ball.center
      = ⟨g.ball.center.x + (Vector2Normalize lib g.ball.velocity).x * g.ball.speed * dt,
         g.ball.center.y + (Vector2Normalize lib g.ball.velocity).y * g.ball.speed * dt⟩ := rfl

theorem stepCollide_center (g : PongGame K) : (stepCollide g).ball.center = g.ball.center := by
  unfold stepCollide
  dsimp only
  split_ifs <;> rfl

/-- The ball after the opponent move and the speed ramp has the velocity and
the centre it had before them. -/
theorem stepRamp_stepOpponent_ball (lib : LibM K) (dt : K) (g : PongGame K) :
    (stepRamp lib (stepOpponent dt g)).ball.velocity = g.ball.velocity
      ∧ (stepRamp lib (stepOpponent dt g)).ball.center = g.ball.center := ⟨rfl, rfl⟩

/-- The collision block when only a wall is touched: the vertical component of
the velocity changes sign. -/
theorem stepCollide_wall_only (g : PongGame K)
    (hwall : CheckCollisionCircleRec g.ball.center g.ball.radius g.topWall.rect = true
      ∨ CheckCollisionCircleRec g.ball.center g.ball.radius g.bottomWall.rect = true)
    (hpr : CheckCollisionCircleRec g.ball.center g.ball.radius g.rightPaddle.rect = false)
    (hpl : CheckCollisionCircleRec g.ball.center g.ball.radius g.leftPaddle.rect = false) :
    (stepCollide g).ball.velocity = ⟨g.ball.velocity.x, -g.ball.velocity.y⟩ := by
  have h1 : (CheckCollisionCircleRec g.ball.center g.ball.radius g.topWall.rect
      || CheckCollisionCircleRec g.ball.center g.ball.radius g.bottomWall.rect) = true := by
    rcases hwall with h | h <;> simp [h]
  unfold stepCollide
  dsimp only
  rw [if_pos h1]
  dsimp only
  rw [hpr, hpl]
  simp only [Bool.or_self, Bool.false_eq_true, if_false, mul_neg, mul_one]

/-- The collision block when only a paddle is touched: the horizontal component
of the velocity changes sign. -/
theorem stepCollide_paddle_only (g : PongGame K)
    (hpad : CheckCollisionCircleRec g.ball.center g.ball.radius g.rightPaddle.rect = true
      ∨ CheckCollisionCircleRec g.ball.center g.ball.radius g.leftPaddle.rect = true)
    (ht : CheckCollisionCircleRec g.ball.center g.ball.radius g.topWall.rect = false)
    (hb : CheckCollisionCircleRec g.ball.center g.ball.radius g.bottomWall.rect = false) :
    (stepCollide g).ball.velocity = ⟨-g.ball.velocity.x, g.ball.velocity.y⟩ := by
  have h1 : (CheckCollisionCircleRec g.ball.center g.ball.radius g.rightPaddle.rect
      || CheckCollisionCircleRec g.ball.center g.ball.radius g.leftPaddle.rect) = true := by
    rcases hpad with h | h <;> simp [h]
  unfold stepCollide
  dsimp only
  rw [ht, hb]
  simp only [Bool.or_self, Bool.false_eq_true, if_false]
  rw [if_pos h1]
  simp only [mul_neg, mul_one]

/-- Without a running rally a step returns its argument. -/
theorem step_noop_of_not_started (lib : LibM K) (dt : K) (g : PongGame K)
    (hs : g.gameStarted = false) : step lib dt g = g := by
  unfold step
  rw [hs]
  rfl

/-! ## The ball speed along a run -/

/-- The score block leaves the speed and the speed parameters alone. -/
theorem stepScore_speed (g : PongGame K) :
    (stepScore g).ball.speed = g.ball.speed
      ∧ (stepScore g).ballSpeedIncreaseRate = g.ballSpeedIncreaseRate
      ∧ (stepScore g).initialBallSpeed = g.initialBallSpeed := by
  unfold stepScore
  dsimp only
  split_ifs <;> exact ⟨rfl, rfl, rfl⟩

/-- The collision block leaves the speed and the speed parameters alone. -/
theorem stepCollide_speed (g : PongGame K) :
    (stepCollide g).ball.speed = g.ball.speed
      ∧ (stepCollide g).ballSpeedIncreaseRate = g.ballSpeedIncreaseRate
      ∧ (stepCollide g).initialBallSpeed = g.initialBallSpeed := by
  unfold stepCollide
  dsimp only
  split_ifs <;> exact ⟨rfl, rfl, rfl⟩

/-- A step of a running rally sets the speed to `powf speed ballSpeedIncreaseRate`
and keeps the speed parameters. -/
theorem step_speed (lib : LibM K) (dt : K) (g : PongGame K) (hs : g.gameStarted = true) :
    (step lib dt g).ball.speed = lib.powf g.ball.speed g.ballSpeedIncreaseRate
      ∧ (step lib dt g).ballSpeedIncreaseRate = g.ballSpeedIncreaseRate
      ∧ (step lib dt g).initialBallSpeed = g.initialBallSpeed := by
  have h1 := stepScore_speed (stepIntegrate lib dt g)
  have h2 := stepCollide_speed (stepScore (stepIntegrate lib dt g))
  unfold step
  rw [if_pos hs]
  refine ⟨?_, ?_, ?_⟩
  · show lib.powf (stepCollide (stepScore (stepIntegrate lib dt g))).ball.speed
        (stepCollide (stepScore (stepIntegrate lib dt g))).ballSpeedIncreaseRate = _
    rw [h2.1, h2.2.1, h1.1, h1.2.1]
    rfl
  · show (stepCollide (stepScore (stepIntegrate lib dt g))).ballSpeedIncreaseRate = _
    rw [h2.2.1, h1.2.1]
    rfl
  · show (stepCollide (stepScore (stepIntegrate lib dt g))).initialBallSpeed = _
    rw [h2.2.2, h1.2.2]
    rfl

/-- With real exponentiation, raising a speed of at least 500 to the power
1.0001 does not lower it. -/
theorem speed_le_ramp (x : ℝ) (hx : 500 ≤ x) : x ≤ x ^ ((10001 : ℝ) / 10000) := by
  have h1 : (1 : ℝ) ≤ x := by linarith
  calc x = x ^ (1 : ℝ) := (Real.rpow_one x).symm
    _ ≤ x ^ ((10001 : ℝ) / 10000) :=
      Real.rpow_le_rpow_of_exponent_le h1 (by norm_num)

/-- Every reachable state satisfies the speed invariant (real exponentiation). -/
theorem reachable_speedInv (mem : PongGame ℝ) (width height : Int) (g : PongGame ℝ)
    (hr : Reachable (LibM.mk Real.sqrt Real.rpow) mem width height g) : SpeedInv g := by
  induction hr with
  | init => exact ⟨rfl, rfl, Or.inl rfl, fun h => absurd (h : false = true) Bool.false_ne_true⟩
  | startGame r1 r2 _ ih =>
    obtain ⟨hrate, hinit, -, -⟩ := ih
    have hsp : ∀ s : PongGame ℝ, (startGame (LibM.mk Real.sqrt Real.rpow) r1 r2 s).ball.speed
        = s.initialBallSpeed := fun _ => rfl
    refine ⟨hrate, hinit, Or.inr ?_, fun _ => ?_⟩ <;> rw [hsp, hinit]
  | @step dt s _ ih =>
    obtain ⟨hrate, hinit, hsp, hrun⟩ := ih
    by_cases hs : s.gameStarted = true
    · obtain ⟨e1, e2, e3⟩ := step_speed (LibM.mk Real.sqrt Real.rpow) dt s hs
      have hge : 500 ≤ (step (LibM.mk Real.sqrt Real.rpow) dt s).ball.speed := by
        rw [e1, hrate]
        exact le_trans (hrun hs) (speed_le_ramp _ (hrun hs))
      exact ⟨e2.trans hrate, e3.trans hinit, Or.inr hge, fun _ => hge⟩
    · have hno : step (LibM.mk Real.sqrt Real.rpow) dt s = s :=
        step_noop_of_not_started _ dt s (by simpa using hs)
      rw [hno]
      exact ⟨hrate, hinit, hsp, hrun⟩
  | moveRight y _ ih => exact ih
  | moveLeft y _ ih => exact ih
  | initMatch _ ih =>
    obtain ⟨hrate, hinit, hsp, -⟩ := ih
    exact ⟨hrate, hinit, hsp, fun h => absurd (h : false = true) Bool.false_ne_true⟩

/-! ## Paddle movement -/

/-- The rectangle after `movePaddle`: `y` moves by `d` when the moved paddle is
inside the court and stays otherwise; the other three numbers stay. -/
theorem movePaddle_rect (g : PongGame K) (p : Wall K) (d : K) :
    (movePaddle g p d).rect.y
        = (if 0 ≤ p.rect.y + d ∧ p.rect.y + d + p.rect.height ≤ (g.courtHeight : K)
            then p.rect.y + d else p.rect.y)
    ∧ (movePaddle g p d).rect.x = p.rect.x
    ∧ (movePaddle g p d).rect.width = p.rect.width
    ∧ (movePaddle g p d).rect.height = p.rect.height := by
  by_cases h : 0 ≤ p.rect.y + d ∧ p.rect.y + d + p.rect.height ≤ (g.courtHeight : K)
  · have h' : ¬ (p.rect.y + d < 0 ∨ p.rect.y + d + p.rect.height > (g.courtHeight : K)) := by
      rintro (h1 | h1)
      · exact absurd h.1 (not_le.mpr h1)
      · exact absurd h.2 (not_le.mpr h1)
    unfold movePaddle Wall.move
    dsimp only
    rw [if_neg h', if_pos h]
    exact ⟨rfl, add_zero _, rfl, rfl⟩
  · have h' : p.rect.y + d < 0 ∨ p.rect.y + d + p.rect.height > (g.courtHeight : K) := by
      by_contra hc
      push_neg at hc
      exact h ⟨hc.1, hc.2⟩
    unfold movePaddle Wall.move
    dsimp only
    rw [if_pos h', if_neg h]
    exact ⟨rfl, add_zero _, rfl, rfl⟩

/-- A paddle inside the court is inside the court after `movePaddle`. -/
theorem movePaddle_keeps_inside (g : PongGame K) (p : Wall K) (d : K)
    (h : 0 ≤ p.rect.y ∧ p.rect.y + p.rect.height ≤ (g.courtHeight : K)) :
    0 ≤ (movePaddle g p d).rect.y
      ∧ (movePaddle g p d).rect.y + (movePaddle g p d).rect.height ≤ (g.courtHeight : K) := by
  obtain ⟨hy, -, -, hh⟩ := movePaddle_rect g p d
  rw [hy, hh]
  split_ifs with hc
  · exact hc
  · exact h

/-- A paddle inside the court is inside the court after the opponent move, and
keeps its height. -/
theorem moveOpponent_keeps_inside (g : PongGame K) (p : Wall K) (t v : K)
    (h : 0 ≤ p.rect.y ∧ p.rect.y + p.rect.height ≤ (g.courtHeight : K)) :
    (0 ≤ (moveOpponentPaddleTowardsY g p t v).rect.y
      ∧ (moveOpponentPaddleTowardsY g p t v).rect.y
          + (moveOpponentPaddleTowardsY g p t v).rect.height ≤ (g.courtHeight : K))
    ∧ (moveOpponentPaddleTowardsY g p t v).rect.height = p.rect.height := by
  unfold moveOpponentPaddleTowardsY
  dsimp only
  split_ifs
  · exact ⟨movePaddle_keeps_inside g p _ h, (movePaddle_rect g p _).2.2.2⟩
  · exact ⟨movePaddle_keeps_inside g p _ h, (movePaddle_rect g p _).2.2.2⟩

/-- After `initMatch` the paddles are inside a court of non-negative height when
they are 15 percent of it high. -/
theorem initMatch_paddleInv (height : Int) (g : PongGame K) (hH : (0 : K) ≤ (height : K))
    (hc : g.courtHeight = height)
    (hl : g.leftPaddle.rect.height = percentOf (height : K) 15)
    (hr : g.rightPaddle.rect.height = percentOf (height : K) 15) :
    PaddleInv height (initMatch g) := by
  refine ⟨hc, hl, hr, ?_, ?_⟩
  · show 0 ≤ percentOf (g.courtHeight : K) 50 - g.leftPaddle.rect.height / 2
      ∧ percentOf (g.courtHeight : K) 50 - g.leftPaddle.rect.height / 2
          + g.leftPaddle.rect.height ≤ (g.courtHeight : K)
    rw [hl, hc]
    unfold percentOf
    constructor <;> linarith
  · show 0 ≤ percentOf (g.courtHeight : K) 50 - g.rightPaddle.rect.height / 2
      ∧ percentOf (g.courtHeight : K) 50 - g.rightPaddle.rect.height / 2
          + g.rightPaddle.rect.height ≤ (g.courtHeight : K)
    rw [hr, hc]
    unfold percentOf
    constructor <;> linarith

/-- The score block keeps the paddle invariant. -/
theorem stepScore_paddleInv (height : Int) (g : PongGame K) (hH : (0 : K) ≤ (height : K))
    (h : PaddleInv height g) : PaddleInv height (stepScore g) := by
  obtain ⟨hc, hl, hr, -, -⟩ := id h
  unfold stepScore
  dsimp only
  split_ifs
  · exact initMatch_paddleInv height _ hH (initMatch_paddleInv height _ hH hc hl hr).1
      (initMatch_paddleInv height _ hH hc hl hr).2.1 (initMatch_paddleInv height _ hH hc hl hr).2.2.1
  · exact initMatch_paddleInv height _ hH hc hl hr
  · exact initMatch_paddleInv height _ hH hc hl hr
  · exact h

/-- The collision block keeps the paddle invariant. -/
theorem stepCollide_paddleInv (height : Int) (g : PongGame K) (h : PaddleInv height g) :
    PaddleInv height (stepCollide g) := by
  unfold stepCollide
  dsimp only
  split_ifs <;> exact h

/-- The opponent move keeps the paddle invariant. -/
theorem stepOpponent_paddleInv (height : Int) (dt : K) (g : PongGame K)
    (h : PaddleInv height g) : PaddleInv height (stepOpponent dt g) := by
  obtain ⟨hc, hl, hr, hlin, hrin⟩ := h
  have hm := moveOpponent_keeps_inside
    ({ g with targetedYPos :=
        calculateAiYPos (0 : K) g.ball (g.leftPaddle.rect.x + g.leftPaddle.rect.width) })
    g.leftPaddle
    (calculateAiYPos (0 : K) g.ball (g.leftPaddle.rect.x + g.leftPaddle.rect.width))
    (g.paddleSpeed * dt) hlin
  exact ⟨hc, hm.2.trans hl, hr, hm.1, hrin⟩

/-- A step keeps the paddle invariant. -/
theorem step_paddleInv (lib : LibM K) (height : Int) (dt : K) (g : PongGame K)
    (hH : (0 : K) ≤ (height : K)) (h : PaddleInv height g) :
    PaddleInv height (step lib dt g) := by
  unfold step
  split_ifs
  · have h1 : PaddleInv height (stepIntegrate lib dt g) := h
    have h2 := stepOpponent_paddleInv height dt _
      (stepCollide_paddleInv height _ (stepScore_paddleInv height _ hH h1))
    exact h2
  · exact h

/-- Every reachable state satisfies the paddle invariant. -/
theorem reachable_paddleInv (lib : LibM K) (mem : PongGame K) (width height : Int)
    (g : PongGame K) (hh : 0 < height) (hr : Reachable lib mem width height g) :
    PaddleInv height g := by
  have hH : (0 : K) ≤ (height : K) := by exact_mod_cast le_of_lt hh
  induction hr with
  | init => exact initMatch_paddleInv height _ hH rfl rfl rfl
  | startGame r1 r2 _ ih => exact ih
  | step dt _ ih => exact step_paddleInv lib height dt _ hH ih
  | @moveRight y s _ ih =>
    obtain ⟨hc, hl, hr', hlin, hrin⟩ := ih
    exact ⟨hc, hl, (movePaddle_rect s s.rightPaddle y).2.2.2.trans hr', hlin,
      movePaddle_keeps_inside s s.rightPaddle y hrin⟩
  | @moveLeft y s _ ih =>
    obtain ⟨hc, hl, hr', hlin, hrin⟩ := ih
    exact ⟨hc, (movePaddle_rect s s.leftPaddle y).2.2.2.trans hl, hr',
      movePaddle_keeps_inside s s.leftPaddle y hlin, hrin⟩
  | initMatch _ ih => exact initMatch_paddleInv height _ hH ih.1 ih.2.1 ih.2.2.1

/-! ## The score block, case by case -/

/-- What the score block can do: nothing at all; or end the rally and add one
to the right player's score, to the left player's score, or to both. -/
theorem stepScore_outcome (g : PongGame K) :
    stepScore g = g
    ∨ ((stepScore g).gameStarted = false
        ∧ (((stepScore g).rightPlayerScore = g.rightPlayerScore + 1
              ∧ (stepScore g).leftPlayerScore = g.leftPlayerScore)
          ∨ ((stepScore g).rightPlayerScore = g.rightPlayerScore
              ∧ (stepScore g).leftPlayerScore = g.leftPlayerScore + 1)
          ∨ ((stepScore g).rightPlayerScore = g.rightPlayerScore + 1
              ∧ (stepScore g).leftPlayerScore = g.leftPlayerScore + 1))) := by
  unfold stepScore
  dsimp only
  split_ifs
  · exact Or.inr ⟨rfl, Or.inr (Or.inr ⟨rfl, rfl⟩)⟩
  · exact Or.inr ⟨rfl, Or.inl ⟨rfl, rfl⟩⟩
  · exact Or.inr ⟨rfl, Or.inr (Or.inl ⟨rfl, rfl⟩)⟩
  · exact Or.inl rfl

theorem stepCollide_gameStarted (g : PongGame K) :
    (stepCollide g).gameStarted = g.gameStarted := by
  unfold stepCollide
  dsimp only
  split_ifs <;> rfl

/-- The rally flag after a step of a running rally is the one after the score block. -/
theorem step_gameStarted (lib : LibM K) (dt : K) (g : PongGame K) (hs : g.gameStarted = true) :
    (step lib dt g).gameStarted = (stepScore (stepIntegrate lib dt g)).gameStarted := by
  unfold step
  rw [if_pos hs]
  exact stepCollide_gameStarted _

/-- On the geometry built by the constructor the score block gives a point to
at most one player. -/
theorem stepScore_scores_built (g : PongGame K) (width height : Int)
    (hW : (0 : K) < (width : K))
    (e1 : g.ball.radius = percentOf (width : K) 1)
    (e3 : g.rightCollider.rect
      = ⟨(width : K) - percentOf (width : K) 1, 0, percentOf (width : K) 1, (height : K)⟩)
    (e4 : g.courtWidth = width) (e5 : g.courtHeight = height) :
    ((stepScore g).leftPlayerScore = g.leftPlayerScore
        ∧ (stepScore g).rightPlayerScore = g.rightPlayerScore)
    ∨ ((stepScore g).leftPlayerScore = g.leftPlayerScore + 1
        ∧ (stepScore g).rightPlayerScore = g.rightPlayerScore)
    ∨ ((stepScore g).leftPlayerScore = g.leftPlayerScore
        ∧ (stepScore g).rightPlayerScore = g.rightPlayerScore + 1) := by
  by_cases hleft : CheckCollisionCircleRec g.ball.center g.ball.radius g.leftCollider.rect = true
  · have hmiss : CheckCollisionCircleRec
        (initMatch { g with rightPlayerScore := g.rightPlayerScore + 1 }).ball.center
        (initMatch { g with rightPlayerScore := g.rightPlayerScore + 1 }).ball.radius
        (initMatch { g with rightPlayerScore := g.rightPlayerScore + 1 }).rightCollider.rect
        = false := by
      rw [initMatch_center]
      show CheckCollisionCircleRec ⟨(g.courtWidth : K) / 2, (g.courtHeight : K) / 2⟩
        g.ball.radius g.rightCollider.rect = false
      rw [e1, e3, e4, e5]
      exact centre_misses_rightCollider _ _ hW
    refine Or.inr (Or.inr ?_)
    unfold stepScore
    dsimp only
    rw [if_pos hleft, hmiss]
    exact ⟨rfl, rfl⟩
  · rw [Bool.not_eq_true] at hleft
    by_cases hright :
        CheckCollisionCircleRec g.ball.center g.ball.radius g.rightCollider.rect = true
    · refine Or.inr (Or.inl ?_)
      unfold stepScore
      dsimp only
      rw [hleft]
      simp only [Bool.false_eq_true, if_false]
      rw [if_pos hright]
      exact ⟨rfl, rfl⟩
    · rw [Bool.not_eq_true] at hright
      rw [stepScore_no_touch g hleft hright]
      exact Or.inl ⟨rfl, rfl⟩

/-! ## Normalisation and menu wraparound -/

/-- With the real square root, the normalisation of a non-zero vector has
length 1. -/
theorem normalize_unit_length (v : Vector2 ℝ) (hv : v.x ≠ 0 ∨ v.y ≠ 0) :
    (Vector2Normalize (LibM.mk Real.sqrt Real.rpow) v).x ^ 2
      + (Vector2Normalize (LibM.mk Real.sqrt Real.rpow) v).y ^ 2 = 1 := by
  have hpos : 0 < v.x * v.x + v.y * v.y := by
    rcases hv with h | h
    · have := mul_self_pos.mpr h
      nlinarith [mul_self_nonneg v.y]
    · have := mul_self_pos.mpr h
      nlinarith [mul_self_nonneg v.x]
  have hL : 0 < Real.sqrt (v.x * v.x + v.y * v.y) := Real.sqrt_pos.mpr hpos
  have hsq : Real.sqrt (v.x * v.x + v.y * v.y) ^ 2 = v.x * v.x + v.y * v.y :=
    Real.sq_sqrt (le_of_lt hpos)
  unfold Vector2Normalize
  dsimp only
  rw [if_pos hL]
  dsimp only
  have hne : Real.sqrt (v.x * v.x + v.y * v.y) ≠ 0 := ne_of_gt hL
  field_simp
  ring

/-- The end-of-frame wraparound `currentChoice %= 2` yields 0 or 1, and takes
-1 to 1. -/
theorem wraparound_range (c : Int) :
    (sizeToInt (intToSize c % 2) = 0 ∨ sizeToInt (intToSize c % 2) = 1)
      ∧ sizeToInt (intToSize (-1) % 2) = 1 := by
  refine ⟨?_, by norm_num [sizeToInt, intToSize]⟩
  rcases Nat.mod_two_eq_zero_or_one (intToSize c) with h | h
  · rw [h]
    exact Or.inl (by norm_num [sizeToInt])
  · rw [h]
    exact Or.inr (by norm_num [sizeToInt])

/-- A sequence that completed: its first part completed, and so did the rest. -/
theorem Outcome.bind_completed {α β : Type} (o : Outcome α) (f : α → Outcome β) (r : β)
    (h : o.bind f = .completed r) : ∃ a, o = .completed a ∧ f a = .completed r := by
  cases o with
  | completed a => exact ⟨a, rfl, h⟩
  | assertFailed msg => cases h
  | exited code => cases h

/-- A menu frame that completes leaves `currentChoice` at 0 or 1. -/
theorem mainMenuLoop_choice_range (inp : MenuInput) (c : Int) (ui : UI) (world : PongGame K)
    (r : Int × UI × PongGame K) (h : mainMenuLoop inp c ui world = .completed r) :
    r.1 = 0 ∨ r.1 = 1 := by
  unfold mainMenuLoop at h
  dsimp only at h
  obtain ⟨ui', -, h2⟩ := Outcome.bind_completed _ _ _ h
  obtain ⟨labels, -, h3⟩ := Outcome.bind_completed _ _ _ h2
  have h4 := Outcome.completed.inj h3
  rw [← h4]
  simp only [List.length_cons, List.length_nil, Nat.zero_add, Nat.reduceAdd]
  exact (wraparound_range _).1

/-! ## Properties -/

/-- C1: `movePaddle` is an all-or-nothing clamp.  The new `y` is `y + deltaY`
when the moved paddle lies within `[0, courtHeight]` and the old `y` otherwise;
`x`, `width` and `height` are not changed; hence afterwards the vertical span is
inside `[0, courtHeight]` or the position is the old one. -/
theorem movePaddle_all_or_nothing (g : PongGame K) (paddle : Wall K) (deltaY : K) :
    (movePaddle g paddle deltaY).rect.y =
        (if 0 ≤ paddle.rect.y + deltaY
            ∧ paddle.rect.y + deltaY + paddle.rect.height ≤ (g.courtHeight : K)
          then paddle.rect.y + deltaY else paddle.rect.y)
    ∧ (movePaddle g paddle deltaY).rect.x = paddle.rect.x
    ∧ (movePaddle g paddle deltaY).rect.width = paddle.rect.width
    ∧ (movePaddle g paddle deltaY).rect.height = paddle.rect.height
    ∧ ((0 ≤ (movePaddle g paddle deltaY).rect.y
          ∧ (movePaddle g paddle deltaY).rect.y + (movePaddle g paddle deltaY).rect.height
              ≤ (g.courtHeight : K))
        ∨ (movePaddle g paddle deltaY).rect.y = paddle.rect.y) := by
  by_cases h : 0 ≤ paddle.rect.y + deltaY
      ∧ paddle.rect.y + deltaY + paddle.rect.height ≤ (g.courtHeight : K)
  · have h' : ¬ (paddle.rect.y + deltaY < 0
        ∨ paddle.rect.y + deltaY + paddle.rect.height > (g.courtHeight : K)) := by
      rintro (h1 | h1)
      · exact absurd h.1 (not_le.mpr h1)
      · exact absurd h.2 (not_le.mpr h1)
    unfold movePaddle Wall.move
    dsimp only
    rw [if_neg h', if_pos h]
    exact ⟨rfl, add_zero _, rfl, rfl, Or.inl h⟩
  · have h' : paddle.rect.y + deltaY < 0
        ∨ paddle.rect.y + deltaY + paddle.rect.height > (g.courtHeight : K) := by
      by_contra hc
      push_neg at hc
      exact h ⟨hc.1, hc.2⟩
    unfold movePaddle Wall.move
    dsimp only
    rw [if_pos h', if_neg h]
    exact ⟨rfl, add_zero _, rfl, rfl, Or.inr rfl⟩

/-- C2: scoring counters.  In a running rally whose geometry (court, colliders,
paddle sizes, ball radius) is the one the constructor builds for a positive
`width` and `height`: when the ball, after position integration, touches the
left collider, `step` adds one to `rightPlayerScore` and leaves
`leftPlayerScore` alone; when it touches the right collider, `step` adds one to
`leftPlayerScore` and leaves `rightPlayerScore` alone. -/
theorem step_score_counters (lib : LibM K) (mem g : PongGame K) (width height : Int)
    (dt : K) (hw : 0 < width) (hh : 0 < height)
    (hgeo : SameGeometry g (newPongGame mem width height))
    (hs : g.gameStarted = true) :
    (CheckCollisionCircleRec (stepIntegrate lib dt g).ball.center
          (stepIntegrate lib dt g).ball.radius (stepIntegrate lib dt g).leftCollider.rect = true →
        (step lib dt g).rightPlayerScore = g.rightPlayerScore + 1
          ∧ (step lib dt g).leftPlayerScore = g.leftPlayerScore)
    ∧ (CheckCollisionCircleRec (stepIntegrate lib dt g).ball.center
          (stepIntegrate lib dt g).ball.radius (stepIntegrate lib dt g).rightCollider.rect = true →
        (step lib dt g).leftPlayerScore = g.leftPlayerScore + 1
          ∧ (step lib dt g).rightPlayerScore = g.rightPlayerScore) := by
  have _hh := hh
  obtain ⟨hcw, hch, -, -, hl, hr, -, -, -, -, -, -, hrad⟩ := hgeo
  rw [newPongGame_courtWidth] at hcw
  rw [newPongGame_courtHeight] at hch
  rw [newPongGame_leftCollider] at hl
  rw [newPongGame_rightCollider] at hr
  rw [newPongGame_radius] at hrad
  have hW : (0 : K) < (width : K) := by exact_mod_cast hw
  have e1 : (stepIntegrate lib dt g).ball.radius = percentOf (width : K) 1 := hrad
  have e2 : (stepIntegrate lib dt g).leftCollider.rect
      = ⟨0, 0, percentOf (width : K) 1, (height : K)⟩ := hl
  have e3 : (stepIntegrate lib dt g).rightCollider.rect
      = ⟨(width : K) - percentOf (width : K) 1, 0, percentOf (width : K) 1, (height : K)⟩ := hr
  have e4 : (stepIntegrate lib dt g).courtWidth = width := hcw
  have e5 : (stepIntegrate lib dt g).courtHeight = height := hch
  have e6 : (stepIntegrate lib dt g).rightPlayerScore = g.rightPlayerScore := rfl
  have e7 : (stepIntegrate lib dt g).leftPlayerScore = g.leftPlayerScore := rfl
  obtain ⟨sr, sl⟩ := step_scores lib dt g hs
  rw [sr, sl, e1, e2, e3]
  generalize stepIntegrate lib dt g = g1 at e1 e2 e3 e4 e5 e6 e7
  constructor
  · intro hleft
    -- the first branch scores and recentres; the recentred ball misses the right collider
    have hmiss : CheckCollisionCircleRec
        (initMatch { g1 with rightPlayerScore := g1.rightPlayerScore + 1 }).ball.center
        (initMatch { g1 with rightPlayerScore := g1.rightPlayerScore + 1 }).ball.radius
        (initMatch { g1 with rightPlayerScore := g1.rightPlayerScore + 1 }).rightCollider.rect
        = false := by
      rw [initMatch_center]
      show CheckCollisionCircleRec ⟨(g1.courtWidth : K) / 2, (g1.courtHeight : K) / 2⟩
        g1.ball.radius g1.rightCollider.rect = false
      rw [e1, e3, e4, e5]
      exact centre_misses_rightCollider _ _ hW
    unfold stepScore
    dsimp only
    rw [e1, e2, if_pos hleft, hmiss]
    exact ⟨by rw [← e6]; rfl, by rw [← e7]; rfl⟩
  · intro hright
    have hnl : CheckCollisionCircleRec g1.ball.center (percentOf (width : K) 1)
        ⟨0, 0, percentOf (width : K) 1, (height : K)⟩ = false := by
      by_contra hc
      rw [Bool.not_eq_false] at hc
      have := left_misses_rightCollider g1.ball.center _ (height : K) hW
        (touch_leftCollider_bound _ _ _ hc)
      rw [this] at hright
      exact Bool.false_ne_true hright
    unfold stepScore
    dsimp only
    rw [e1, e2, hnl]
    simp only [Bool.false_eq_true, if_false]
    rw [e1, e3, if_pos hright]
    exact ⟨by rw [← e7]; rfl, by rw [← e6]; rfl⟩

/-! ### Concrete evaluations over the reals -/

theorem normalize_left_unit :
    Vector2Normalize (LibM.mk Real.sqrt Real.rpow) ⟨-1, 0⟩ = ⟨-1, 0⟩ := by
  simp [Vector2Normalize]

theorem rallyNearLeft_moved :
    (stepIntegrate (LibM.mk Real.sqrt Real.rpow) (1 / 100) rallyNearLeft).ball.center
      = ⟨28, 100⟩ := by
  simp only [stepIntegrate, rallyNearLeft, normalize_left_unit]
  norm_num

theorem rallyNearLeft_geometry :
    SameGeometry (rallyNearLeft : PongGame ℝ) (newPongGame zeroGame 1600 900) := by
  simp [SameGeometry, rallyNearLeft, mainWorld, initMatch, newPongGame, positionWalls]

/-- Witness of C2: on the 1600 x 900 court, the ball at (33, 100) flying left at
speed 500 reaches the left collider within 1/100 s, and the step gives the
point to the right player only. -/
theorem step_score_counters_witness :
    (step (LibM.mk Real.sqrt Real.rpow) (1 / 100) rallyNearLeft).rightPlayerScore
        = (rallyNearLeft : PongGame ℝ).rightPlayerScore + 1
      ∧ (step (LibM.mk Real.sqrt Real.rpow) (1 / 100) rallyNearLeft).leftPlayerScore
        = (rallyNearLeft : PongGame ℝ).leftPlayerScore :=
  (step_score_counters (LibM.mk Real.sqrt Real.rpow) zeroGame rallyNearLeft 1600 900 (1 / 100)
    (by decide) (by decide) rallyNearLeft_geometry rfl).1
    (by
      rw [rallyNearLeft_moved]
      norm_num [CheckCollisionCircleRec, stepIntegrate, rallyNearLeft, mainWorld, initMatch,
        newPongGame, positionWalls, percentOf])

/-- C3 (evaluation at the failing input): on the 1600 x 900 court, a step of
1/100 s that scores a point for the right player ends with the ball and the
right paddle recentred, but with the vertical centre of the left paddle at 455
and not at `courtHeight / 2 = 450`: the opponent move of the same step has
shifted the paddle that `initMatch` had just centred. -/
theorem step_point_leaves_left_paddle_off_centre :
    (step (LibM.mk Real.sqrt Real.rpow) (1 / 100) rallyNearLeft).rightPlayerScore
        = (rallyNearLeft : PongGame ℝ).rightPlayerScore + 1
    ∧ (step (LibM.mk Real.sqrt Real.rpow) (1 / 100) rallyNearLeft).gameStarted = false
    ∧ (step (LibM.mk Real.sqrt Real.rpow) (1 / 100) rallyNearLeft).courtHeight = 900
    ∧ (step (LibM.mk Real.sqrt Real.rpow) (1 / 100) rallyNearLeft).ball.center = ⟨800, 450⟩
    ∧ (step (LibM.mk Real.sqrt Real.rpow) (1 / 100) rallyNearLeft).rightPaddle.rect.y
        + (step (LibM.mk Real.sqrt Real.rpow) (1 / 100) rallyNearLeft).rightPaddle.rect.height / 2
        = 450
    ∧ (step (LibM.mk Real.sqrt Real.rpow) (1 / 100) rallyNearLeft).leftPaddle.rect.y
        + (step (LibM.mk Real.sqrt Real.rpow) (1 / 100) rallyNearLeft).leftPaddle.rect.height / 2
        = 455 := by
  norm_num [step, stepRamp, stepOpponent, stepCollide, stepScore, stepIntegrate, rallyNearLeft,
    normalize_left_unit, CheckCollisionCircleRec, mainWorld, initMatch, newPongGame,
    positionWalls, percentOf, calculateAiYPos, moveOpponentPaddleTowardsY, movePaddle,
    Wall.move, zeroGame]

/-- C4: wall bounce.  In a running rally, when the ball after position
integration touches the top or the bottom wall and touches neither paddle nor
either scoring collider, the velocity after `step` is `(n.x, -n.y)` with `n` the
normalised velocity from before the step; the length of the velocity (and its
square) is that of `n`. -/
theorem step_wall_bounce (lib : LibM K) (dt : K) (g : PongGame K)
    (hs : g.gameStarted = true)
    (hwall : CheckCollisionCircleRec (stepIntegrate lib dt g).ball.center
          (stepIntegrate lib dt g).ball.radius (stepIntegrate lib dt g).topWall.rect = true
      ∨ CheckCollisionCircleRec (stepIntegrate lib dt g).ball.center
          (stepIntegrate lib dt g).ball.radius (stepIntegrate lib dt g).bottomWall.rect = true)
    (hpr : CheckCollisionCircleRec (stepIntegrate lib dt g).ball.center
      (stepIntegrate lib dt g).ball.radius (stepIntegrate lib dt g).rightPaddle.rect = false)
    (hpl : CheckCollisionCircleRec (stepIntegrate lib dt g).ball.center
      (stepIntegrate lib dt g).ball.radius (stepIntegrate lib dt g).leftPaddle.rect = false)
    (hcl : CheckCollisionCircleRec (stepIntegrate lib dt g).ball.center
      (stepIntegrate lib dt g).ball.radius (stepIntegrate lib dt g).leftCollider.rect = false)
    (hcr : CheckCollisionCircleRec (stepIntegrate lib dt g).ball.center
      (stepIntegrate lib dt g).ball.radius (stepIntegrate lib dt g).rightCollider.rect = false) :
    (step lib dt g).ball.velocity
        = ⟨(Vector2Normalize lib g.ball.velocity).x, -(Vector2Normalize lib g.ball.velocity).y⟩
    ∧ (step lib dt g).ball.velocity.x * (step lib dt g).ball.velocity.x
          + (step lib dt g).ball.velocity.y * (step lib dt g).ball.velocity.y
        = (Vector2Normalize lib g.ball.velocity).x * (Vector2Normalize lib g.ball.velocity).x
          + (Vector2Normalize lib g.ball.velocity).y * (Vector2Normalize lib g.ball.velocity).y
    ∧ lib.sqrtf ((step lib dt g).ball.velocity.x * (step lib dt g).ball.velocity.x
          + (step lib dt g).ball.velocity.y * (step lib dt g).ball.velocity.y)
        = lib.sqrtf
          ((Vector2Normalize lib g.ball.velocity).x * (Vector2Normalize lib g.ball.velocity).x
          + (Vector2Normalize lib g.ball.velocity).y * (Vector2Normalize lib g.ball.velocity).y) := by
  have hv : (step lib dt g).ball.velocity
      = ⟨(Vector2Normalize lib g.ball.velocity).x,
          -(Vector2Normalize lib g.ball.velocity).y⟩ := by
    rw [step_no_score lib dt g hs hcl hcr, (stepRamp_stepOpponent_ball lib dt _).1,
      stepCollide_wall_only _ hwall hpr hpl, stepIntegrate_velocity]
  have hsq : (step lib dt g).ball.velocity.x * (step lib dt g).ball.velocity.x
        + (step lib dt g).ball.velocity.y * (step lib dt g).ball.velocity.y
      = (Vector2Normalize lib g.ball.velocity).x * (Vector2Normalize lib g.ball.velocity).x
        + (Vector2Normalize lib g.ball.velocity).y * (Vector2Normalize lib g.ball.velocity).y := by
    rw [hv]
    simp only [neg_mul_neg]
  exact ⟨hv, hsq, congrArg lib.sqrtf hsq⟩

/-- C5: paddle bounce.  In a running rally, when the ball after position
integration touches the left or the right paddle and touches neither wall nor
either scoring collider, the velocity after `step` is `(-n.x, n.y)` with `n` the
normalised velocity from before the step; the length of the velocity (and its
square) is that of `n`. -/
theorem step_paddle_bounce (lib : LibM K) (dt : K) (g : PongGame K)
    (hs : g.gameStarted = true)
    (hpad : CheckCollisionCircleRec (stepIntegrate lib dt g).ball.center
          (stepIntegrate lib dt g).ball.radius (stepIntegrate lib dt g).rightPaddle.rect = true
      ∨ CheckCollisionCircleRec (stepIntegrate lib dt g).ball.center
          (stepIntegrate lib dt g).ball.radius (stepIntegrate lib dt g).leftPaddle.rect = true)
    (ht : CheckCollisionCircleRec (stepIntegrate lib dt g).ball.center
      (stepIntegrate lib dt g).ball.radius (stepIntegrate lib dt g).topWall.rect = false)
    (hb : CheckCollisionCircleRec (stepIntegrate lib dt g).ball.center
      (stepIntegrate lib dt g).ball.radius (stepIntegrate lib dt g).bottomWall.rect = false)
    (hcl : CheckCollisionCircleRec (stepIntegrate lib dt g).ball.center
      (stepIntegrate lib dt g).ball.radius (stepIntegrate lib dt g).leftCollider.rect = false)
    (hcr : CheckCollisionCircleRec (stepIntegrate lib dt g).ball.center
      (stepIntegrate lib dt g).ball.radius (stepIntegrate lib dt g).rightCollider.rect = false) :
    (step lib dt g).ball.velocity
        = ⟨-(Vector2Normalize lib g.ball.velocity).x, (Vector2Normalize lib g.ball.velocity).y⟩
    ∧ (step lib dt g).ball.velocity.x * (step lib dt g).ball.velocity.x
          + (step lib dt g).ball.velocity.y * (step lib dt g).ball.velocity.y
        = (Vector2Normalize lib g.ball.velocity).x * (Vector2Normalize lib g.ball.velocity).x
          + (Vector2Normalize lib g.ball.velocity).y * (Vector2Normalize lib g.ball.velocity).y
    ∧ lib.sqrtf ((step lib dt g).ball.velocity.x * (step lib dt g).ball.velocity.x
          + (step lib dt g).ball.velocity.y * (step lib dt g).ball.velocity.y)
        = lib.sqrtf
          ((Vector2Normalize lib g.ball.velocity).x * (Vector2Normalize lib g.ball.velocity).x
          + (Vector2Normalize lib g.ball.velocity).y * (Vector2Normalize lib g.ball.velocity).y) := by
  have hv : (step lib dt g).ball.velocity
      = ⟨-(Vector2Normalize lib g.ball.velocity).x,
          (Vector2Normalize lib g.ball.velocity).y⟩ := by
    rw [step_no_score lib dt g hs hcl hcr, (stepRamp_stepOpponent_ball lib dt _).1,
      stepCollide_paddle_only _ hpad ht hb, stepIntegrate_velocity]
  have hsq : (step lib dt g).ball.velocity.x * (step lib dt g).ball.velocity.x
        + (step lib dt g).ball.velocity.y * (step lib dt g).ball.velocity.y
      = (Vector2Normalize lib g.ball.velocity).x * (Vector2Normalize lib g.ball.velocity).x
        + (Vector2Normalize lib g.ball.velocity).y * (Vector2Normalize lib g.ball.velocity).y := by
    rw [hv]
    simp only [neg_mul_neg]
  exact ⟨hv, hsq, congrArg lib.sqrtf hsq⟩

theorem normalize_up_right :
    Vector2Normalize (LibM.mk Real.sqrt Real.rpow) ⟨3 / 5, -4 / 5⟩ = ⟨3 / 5, -4 / 5⟩ := by
  have e : (3 / 5 : ℝ) * (3 / 5) + (-4 / 5) * (-4 / 5) = 1 := by norm_num
  unfold Vector2Normalize
  dsimp only
  rw [e, Real.sqrt_one]
  norm_num

theorem normalize_down_right :
    Vector2Normalize (LibM.mk Real.sqrt Real.rpow) ⟨4 / 5, 3 / 5⟩ = ⟨4 / 5, 3 / 5⟩ := by
  have e : (4 / 5 : ℝ) * (4 / 5) + (3 / 5) * (3 / 5) = 1 := by norm_num
  unfold Vector2Normalize
  dsimp only
  rw [e, Real.sqrt_one]
  norm_num

theorem rallyNearTop_moved :
    (stepIntegrate (LibM.mk Real.sqrt Real.rpow) (1 / 100) rallyNearTop).ball.center
      = ⟨803, 24⟩ := by
  simp only [stepIntegrate, rallyNearTop, normalize_up_right]
  norm_num

theorem rallyNearRightPaddle_moved :
    (stepIntegrate (LibM.mk Real.sqrt Real.rpow) (1 / 100) rallyNearRightPaddle).ball.center
      = ⟨1538, 453⟩ := by
  simp only [stepIntegrate, rallyNearRightPaddle, normalize_down_right]
  norm_num

/-- Witness of C4: on the 1600 x 900 court, the ball at (800, 28) flying along
(3/5, -4/5) at speed 500 reaches the top wall within 1/100 s and leaves the
step with velocity (3/5, 4/5). -/
theorem step_wall_bounce_witness :
    (step (LibM.mk Real.sqrt Real.rpow) (1 / 100) rallyNearTop).ball.velocity
      = ⟨3 / 5, 4 / 5⟩ := by
  have h := (step_wall_bounce (LibM.mk Real.sqrt Real.rpow) (1 / 100) rallyNearTop rfl
    (Or.inl (by
      rw [rallyNearTop_moved]
      norm_num [CheckCollisionCircleRec, stepIntegrate, rallyNearTop, mainWorld, initMatch,
        newPongGame, positionWalls, percentOf, abs_div]))
    (by
      rw [rallyNearTop_moved]
      norm_num [CheckCollisionCircleRec, stepIntegrate, rallyNearTop, mainWorld, initMatch,
        newPongGame, positionWalls, percentOf, zeroGame, abs_div])
    (by
      rw [rallyNearTop_moved]
      norm_num [CheckCollisionCircleRec, stepIntegrate, rallyNearTop, mainWorld, initMatch,
        newPongGame, positionWalls, percentOf, zeroGame, abs_div])
    (by
      rw [rallyNearTop_moved]
      norm_num [CheckCollisionCircleRec, stepIntegrate, rallyNearTop, mainWorld, initMatch,
        newPongGame, positionWalls, percentOf, abs_div])
    (by
      rw [rallyNearTop_moved]
      norm_num [CheckCollisionCircleRec, stepIntegrate, rallyNearTop, mainWorld, initMatch,
        newPongGame, positionWalls, percentOf, abs_div])).1
  rw [h]
  show (⟨(Vector2Normalize (LibM.mk Real.sqrt Real.rpow) ⟨3 / 5, -4 / 5⟩).x,
      -(Vector2Normalize (LibM.mk Real.sqrt Real.rpow) ⟨3 / 5, -4 / 5⟩).y⟩ : Vector2 ℝ)
    = ⟨3 / 5, 4 / 5⟩
  rw [normalize_up_right]
  norm_num

/-- Witness of C5: on the 1600 x 900 court, the ball at (1534, 450) flying along
(4/5, 3/5) at speed 500 reaches the right paddle within 1/100 s and leaves the
step with velocity (-4/5, 3/5). -/
theorem step_paddle_bounce_witness :
    (step (LibM.mk Real.sqrt Real.rpow) (1 / 100) rallyNearRightPaddle).ball.velocity
      = ⟨-4 / 5, 3 / 5⟩ := by
  have h := (step_paddle_bounce (LibM.mk Real.sqrt Real.rpow) (1 / 100) rallyNearRightPaddle rfl
    (Or.inl (by
      rw [rallyNearRightPaddle_moved]
      norm_num [CheckCollisionCircleRec, stepIntegrate, rallyNearRightPaddle, mainWorld,
        initMatch, newPongGame, positionWalls, percentOf, zeroGame,
        abs_div]))
    (by
      rw [rallyNearRightPaddle_moved]
      norm_num [CheckCollisionCircleRec, stepIntegrate, rallyNearRightPaddle, mainWorld,
        initMatch, newPongGame, positionWalls, percentOf, abs_div])
    (by
      rw [rallyNearRightPaddle_moved]
      norm_num [CheckCollisionCircleRec, stepIntegrate, rallyNearRightPaddle, mainWorld,
        initMatch, newPongGame, positionWalls, percentOf, abs_div])
    (by
      rw [rallyNearRightPaddle_moved]
      norm_num [CheckCollisionCircleRec, stepIntegrate, rallyNearRightPaddle, mainWorld,
        initMatch, newPongGame, positionWalls, percentOf, abs_div])
    (by
      rw [rallyNearRightPaddle_moved]
      norm_num [CheckCollisionCircleRec, stepIntegrate, rallyNearRightPaddle, mainWorld,
        initMatch, newPongGame, positionWalls, percentOf, abs_div])).1
  rw [h]
  show (⟨-(Vector2Normalize (LibM.mk Real.sqrt Real.rpow) ⟨4 / 5, 3 / 5⟩).x,
      (Vector2Normalize (LibM.mk Real.sqrt Real.rpow) ⟨4 / 5, 3 / 5⟩).y⟩ : Vector2 ℝ)
    = ⟨-4 / 5, 3 / 5⟩
  rw [normalize_down_right]
  norm_num

/-- C6: the AI target.  For a ball with centre `(cx, cy)` and velocity
`(vx, vy)`, `vx ≠ 0`, `calculateAiYPos e ball px = cy + (vy / vx) * (px - cx) + e`;
with `e = 0` the point `(px, result)` lies on the ball's line of travel: it is
`centre + t * velocity` for some `t`. -/
theorem calculateAiYPos_formula (e : K) (b : Ball K) (px : K) (hvx : b.velocity.x ≠ 0) :
    calculateAiYPos e b px
        = b.center.y + (b.velocity.y / b.velocity.x) * (px - b.center.x) + e
    ∧ ∃ t : K, b.center.x + t * b.velocity.x = px
        ∧ b.center.y + t * b.velocity.y = calculateAiYPos 0 b px := by
  refine ⟨?_, (px - b.center.x) / b.velocity.x, ?_, ?_⟩
  · unfold calculateAiYPos
    ring
  · field_simp
  · unfold calculateAiYPos
    field_simp
    ring

/-- Witness of C6: a ball at (800, 450) flying along (-4/5, 3/5) is expected at
height 1014 on the line `x = 48`. -/
theorem calculateAiYPos_formula_witness :
    calculateAiYPos (0 : ℚ) ⟨LIGHTGRAY, ⟨800, 450⟩, ⟨-4 / 5, 3 / 5⟩, 16, 500, false⟩ 48 = 1014 := by
  have h := (calculateAiYPos_formula (0 : ℚ)
    ⟨LIGHTGRAY, ⟨800, 450⟩, ⟨-4 / 5, 3 / 5⟩, 16, 500, false⟩ 48 (by norm_num)).1
  rw [h]
  norm_num

/-- C8: position integration.  In a running rally with a non-zero velocity,
when the moved ball touches neither scoring collider, the centre after `step`
is the old centre plus normalised old velocity times old speed times `dt` (the
speed from before the speed ramp of this step). -/
theorem step_integrates_position (lib : LibM K) (dt : K) (g : PongGame K)
    (hs : g.gameStarted = true) (hv : g.ball.velocity ≠ ⟨0, 0⟩)
    (hcl : CheckCollisionCircleRec (stepIntegrate lib dt g).ball.center
      (stepIntegrate lib dt g).ball.radius (stepIntegrate lib dt g).leftCollider.rect = false)
    (hcr : CheckCollisionCircleRec (stepIntegrate lib dt g).ball.center
      (stepIntegrate lib dt g).ball.radius (stepIntegrate lib dt g).rightCollider.rect = false) :
    (step lib dt g).ball.center
      = ⟨g.ball.center.x + (Vector2Normalize lib g.ball.velocity).x * g.ball.speed * dt,
         g.ball.center.y + (Vector2Normalize lib g.ball.velocity).y * g.ball.speed * dt⟩ := by
  have _hv := hv
  rw [step_no_score lib dt g hs hcl hcr, (stepRamp_stepOpponent_ball lib dt _).2,
    stepCollide_center, stepIntegrate_center]

theorem normalize_right_unit :
    Vector2Normalize (LibM.mk Real.sqrt Real.rpow) ⟨1, 0⟩ = ⟨1, 0⟩ := by
  simp [Vector2Normalize]

theorem rallyAtCentre_moved :
    (stepIntegrate (LibM.mk Real.sqrt Real.rpow) (1 / 120) rallyAtCentre).ball.center
      = ⟨800 + 500 / 120, 450⟩ := by
  simp only [stepIntegrate, rallyAtCentre, normalize_right_unit]
  norm_num

/-- Witness of C8, the scenario of the specification: court 1600 x 900, ball at
(800, 450), velocity (1, 0), speed 500, `dt = 1/120`; after the step the ball
is at `(800 + 500/120, 450)`. -/
theorem step_integrates_position_witness :
    (step (LibM.mk Real.sqrt Real.rpow) (1 / 120) rallyAtCentre).ball.center
      = ⟨800 + 500 / 120, 450⟩ := by
  have h := step_integrates_position (LibM.mk Real.sqrt Real.rpow) (1 / 120) rallyAtCentre rfl
    (by
      intro hc
      have hx := congrArg Vector2.x hc
      norm_num [rallyAtCentre] at hx)
    (by
      rw [rallyAtCentre_moved]
      norm_num [CheckCollisionCircleRec, stepIntegrate, rallyAtCentre, mainWorld, initMatch,
        newPongGame, positionWalls, percentOf, abs_div])
    (by
      rw [rallyAtCentre_moved]
      norm_num [CheckCollisionCircleRec, stepIntegrate, rallyAtCentre, mainWorld, initMatch,
        newPongGame, positionWalls, percentOf, abs_div])
  rw [h]
  show (⟨800 + (Vector2Normalize (LibM.mk Real.sqrt Real.rpow) ⟨1, 0⟩).x * 500 * (1 / 120),
      450 + (Vector2Normalize (LibM.mk Real.sqrt Real.rpow) ⟨1, 0⟩).y * 500 * (1 / 120)⟩ :
        Vector2 ℝ) = ⟨800 + 500 / 120, 450⟩
  rw [normalize_right_unit]
  norm_num

/-- C9: before a rally starts `step` does nothing: with `gameStarted = false`
the state after `step` is the state before it, in every member. -/
theorem step_noop_before_rally (lib : LibM K) (dt : K) (g : PongGame K)
    (hs : g.gameStarted = false) : step lib dt g = g := by
  unfold step
  rw [hs]
  rfl

/-- Witness of C9: the world as `main` builds it is not changed by a step. -/
theorem step_noop_before_rally_witness :
    step (LibM.mk Real.sqrt Real.rpow) (1 / 120) (mainWorld : PongGame ℝ) = mainWorld :=
  step_noop_before_rally (LibM.mk Real.sqrt Real.rpow) (1 / 120) mainWorld rfl

/-- The velocity `startGame` computes, as line 286 is written: the first number
is never changed, the second is kept when `r1 ≤ r2` and overwritten with the
first when `r1 > r2`. -/
theorem startGame_velocity (lib : LibM K) (r1 r2 : K) (g : PongGame K) :
    (startGame lib r1 r2 g).ball.velocity
        = Vector2Normalize lib ⟨r1, if r1 > r2 then r1 else r2⟩
    ∧ (r1 ≤ r2 → (startGame lib r1 r2 g).ball.velocity = Vector2Normalize lib ⟨r1, r2⟩)
    ∧ (r1 > r2 → (startGame lib r1 r2 g).ball.velocity = Vector2Normalize lib ⟨r1, r1⟩) := by
  have h : (startGame lib r1 r2 g).ball.velocity
      = Vector2Normalize lib ⟨r1, if r1 > r2 then r1 else r2⟩ := rfl
  refine ⟨h, fun hle => ?_, fun hgt => ?_⟩
  · rw [h, if_neg (not_lt.mpr hle)]
  · rw [h, if_pos hgt]

/-- C10 (evaluation at the failing input): `startGame(1, 0)` does not set the
velocity to the normalisation of `(1, 0)`.  The ordering step, meant to swap
the two numbers, has overwritten the second number with the first, and the
velocity is the normalisation of `(1, 1)`. -/
theorem startGame_ordering_changes_second :
    (startGame (LibM.mk Real.sqrt Real.rpow) 1 0 (mainWorld : PongGame ℝ)).ball.velocity
        = Vector2Normalize (LibM.mk Real.sqrt Real.rpow) ⟨1, 1⟩
    ∧ (startGame (LibM.mk Real.sqrt Real.rpow) 1 0 (mainWorld : PongGame ℝ)).ball.velocity
        ≠ Vector2Normalize (LibM.mk Real.sqrt Real.rpow) ⟨1, 0⟩ := by
  refine ⟨(startGame_velocity (LibM.mk Real.sqrt Real.rpow) 1 0 mainWorld).2.2
    (by norm_num), ?_⟩
  intro h
  have hy := congrArg Vector2.y h
  rw [normalize_right_unit] at hy
  have h2 : (0 : ℝ) < Real.sqrt (1 * 1 + 1 * 1) := Real.sqrt_pos.mpr (by norm_num)
  have e : (startGame (LibM.mk Real.sqrt Real.rpow) 1 0 (mainWorld : PongGame ℝ)).ball.velocity.y
      = 1 * (1 / Real.sqrt (1 * 1 + 1 * 1)) := by
    simp only [startGame, Vector2Normalize, gt_iff_lt, zero_lt_one, if_true, h2]
  rw [e] at hy
  have h3 : (0 : ℝ) < 1 * (1 / Real.sqrt (1 * 1 + 1 * 1)) := by positivity
  exact absurd hy (ne_of_gt h3)

/-- C7: the ball speed never decreases during a rally.  In every state with a
running rally that is reachable from `PongGame(width, height)` and `initMatch`
through `startGame`, `step`, `movePaddle` and `initMatch` calls, the rate
`ballSpeedIncreaseRate` is 1.0001, `step` sets the speed to the old speed
raised to that rate (real exponentiation), and the new speed is at least the
old one, which is at least 0. -/
theorem step_speed_never_decreases (mem : PongGame ℝ) (width height : Int)
    (g : PongGame ℝ) (dt : ℝ)
    (hr : Reachable (LibM.mk Real.sqrt Real.rpow) mem width height g)
    (hs : g.gameStarted = true) :
    g.ballSpeedIncreaseRate = 10001 / 10000
    ∧ (step (LibM.mk Real.sqrt Real.rpow) dt g).ball.speed
        = g.ball.speed ^ ((10001 : ℝ) / 10000)
    ∧ g.ball.speed ≤ (step (LibM.mk Real.sqrt Real.rpow) dt g).ball.speed
    ∧ 0 ≤ g.ball.speed := by
  obtain ⟨hrate, -, -, hrun⟩ := reachable_speedInv mem width height g hr
  have e := (step_speed (LibM.mk Real.sqrt Real.rpow) dt g hs).1
  rw [hrate] at e
  have e' : (step (LibM.mk Real.sqrt Real.rpow) dt g).ball.speed
      = g.ball.speed ^ ((10001 : ℝ) / 10000) := e
  refine ⟨hrate, e', ?_, le_trans (by norm_num) (hrun hs)⟩
  rw [e']
  exact speed_le_ramp _ (hrun hs)

/-- Witness of C7: the first step of the first rally on the 1600 x 900 court
raises the speed from 500 to `500 ^ 1.0001`, which is not below 500. -/
theorem step_speed_never_decreases_witness :
    (step (LibM.mk Real.sqrt Real.rpow) (1 / 120)
        (startGame (LibM.mk Real.sqrt Real.rpow) (-1) 0 mainWorld)).ball.speed
      = (500 : ℝ) ^ ((10001 : ℝ) / 10000)
    ∧ (500 : ℝ) ≤ (step (LibM.mk Real.sqrt Real.rpow) (1 / 120)
        (startGame (LibM.mk Real.sqrt Real.rpow) (-1) 0 mainWorld)).ball.speed := by
  have h := step_speed_never_decreases zeroGame 1600 900
    (startGame (LibM.mk Real.sqrt Real.rpow) (-1) 0 mainWorld) (1 / 120)
    (Reachable.startGame (-1) 0 Reachable.init) rfl
  exact ⟨h.2.1, h.2.2.1⟩

/-- C11 (evaluation at the failing input): `startGame(0, -1)`, two numbers of
`[-1, 1]` that are not both zero, leaves the zero vector as velocity, whose
squared length is 0 and not 1: the ordering step has replaced `-1` by `0`
before the normalisation. -/
theorem startGame_zero_direction :
    (startGame (LibM.mk Real.sqrt Real.rpow) 0 (-1) (mainWorld : PongGame ℝ)).ball.velocity
        = ⟨0, 0⟩
    ∧ (startGame (LibM.mk Real.sqrt Real.rpow) 0 (-1) (mainWorld : PongGame ℝ)).ball.velocity.x ^ 2
        + (startGame (LibM.mk Real.sqrt Real.rpow) 0 (-1)
            (mainWorld : PongGame ℝ)).ball.velocity.y ^ 2 ≠ 1 := by
  have h : (startGame (LibM.mk Real.sqrt Real.rpow) 0 (-1)
      (mainWorld : PongGame ℝ)).ball.velocity = ⟨0, 0⟩ := by
    simp [startGame, Vector2Normalize]
  rw [h]
  norm_num

/-- C12: `initMatch` postcondition and frame.  Afterwards `gameStarted` is
false, the ball centre is `(courtWidth / 2, courtHeight / 2)` and the vertical
centre of each paddle is `courtHeight / 2`; the scores, the velocity and speed
of the ball, `x`, `width` and `height` of each paddle, the walls, the colliders
and the court size are unchanged. -/
theorem initMatch_post_and_frame (g : PongGame K) :
    (initMatch g).gameStarted = false
    ∧ (initMatch g).ball.center = ⟨(g.courtWidth : K) / 2, (g.courtHeight : K) / 2⟩
    ∧ (initMatch g).leftPaddle.rect.y + (initMatch g).leftPaddle.rect.height / 2
        = (g.courtHeight : K) / 2
    ∧ (initMatch g).rightPaddle.rect.y + (initMatch g).rightPaddle.rect.height / 2
        = (g.courtHeight : K) / 2
    ∧ (initMatch g).rightPlayerScore = g.rightPlayerScore
    ∧ (initMatch g).leftPlayerScore = g.leftPlayerScore
    ∧ (initMatch g).ball.velocity = g.ball.velocity
    ∧ (initMatch g).ball.speed = g.ball.speed
    ∧ ((initMatch g).leftPaddle.rect.x = g.leftPaddle.rect.x
        ∧ (initMatch g).leftPaddle.rect.width = g.leftPaddle.rect.width
        ∧ (initMatch g).leftPaddle.rect.height = g.leftPaddle.rect.height)
    ∧ ((initMatch g).rightPaddle.rect.x = g.rightPaddle.rect.x
        ∧ (initMatch g).rightPaddle.rect.width = g.rightPaddle.rect.width
        ∧ (initMatch g).rightPaddle.rect.height = g.rightPaddle.rect.height)
    ∧ ((initMatch g).topWall = g.topWall ∧ (initMatch g).bottomWall = g.bottomWall
        ∧ (initMatch g).leftCollider = g.leftCollider
        ∧ (initMatch g).rightCollider = g.rightCollider)
    ∧ ((initMatch g).courtWidth = g.courtWidth ∧ (initMatch g).courtHeight = g.courtHeight) := by
  refine ⟨rfl, rfl, ?_, ?_, rfl, rfl, rfl, rfl, ⟨rfl, rfl, rfl⟩, ⟨rfl, rfl, rfl⟩,
    ⟨rfl, rfl, rfl, rfl⟩, ⟨rfl, rfl⟩⟩
  · show percentOf (g.courtHeight : K) 50 - g.leftPaddle.rect.height / 2
        + g.leftPaddle.rect.height / 2 = (g.courtHeight : K) / 2
    unfold percentOf
    ring
  · show percentOf (g.courtHeight : K) 50 - g.rightPaddle.rect.height / 2
        + g.rightPaddle.rect.height / 2 = (g.courtHeight : K) / 2
    unfold percentOf
    ring

/-- C13: `positionWalls` geometry.  After `positionWalls(w, h)` the court is
`w` by `h`, the top wall is `(0, 0, w, h/100)`, the bottom wall
`(0, h - h/100, w, h/100)`, the left collider `(0, 0, w/100, h)` and the right
collider `(w - w/100, 0, w/100, h)`; the bottom wall ends at `y = h` and the
right collider at `x = w`; the ball, both paddles, both scores and
`gameStarted` are unchanged. -/
theorem positionWalls_geometry (w h : Int) (g : PongGame K) :
    (positionWalls w h g).courtWidth = w ∧ (positionWalls w h g).courtHeight = h
    ∧ (positionWalls w h g).topWall.rect = ⟨0, 0, (w : K), (h : K) / 100⟩
    ∧ (positionWalls w h g).bottomWall.rect
        = ⟨0, (h : K) - (h : K) / 100, (w : K), (h : K) / 100⟩
    ∧ (positionWalls w h g).leftCollider.rect = ⟨0, 0, (w : K) / 100, (h : K)⟩
    ∧ (positionWalls w h g).rightCollider.rect
        = ⟨(w : K) - (w : K) / 100, 0, (w : K) / 100, (h : K)⟩
    ∧ (positionWalls w h g).bottomWall.rect.y + (positionWalls w h g).bottomWall.rect.height
        = (h : K)
    ∧ (positionWalls w h g).rightCollider.rect.x + (positionWalls w h g).rightCollider.rect.width
        = (w : K)
    ∧ (positionWalls w h g).ball = g.ball
    ∧ (positionWalls w h g).leftPaddle = g.leftPaddle
    ∧ (positionWalls w h g).rightPaddle = g.rightPaddle
    ∧ (positionWalls w h g).rightPlayerScore = g.rightPlayerScore
    ∧ (positionWalls w h g).leftPlayerScore = g.leftPlayerScore
    ∧ (positionWalls w h g).gameStarted = g.gameStarted := by
  have ep : ∀ x : K, percentOf x 1 = x / 100 := fun x => by unfold percentOf; ring
  refine ⟨rfl, rfl, ?_, ?_, ?_, ?_, ?_, ?_, rfl, rfl, rfl, rfl, rfl, rfl⟩
  · show (⟨0, 0, (w : K), percentOf (h : K) 1⟩ : Rectangle K) = _
    rw [ep]
  · show (⟨0, (h : K) - percentOf (h : K) 1, (w : K), percentOf (h : K) 1⟩ : Rectangle K) = _
    rw [ep]
  · show (⟨0, 0, percentOf (w : K) 1, (h : K)⟩ : Rectangle K) = _
    rw [ep]
  · show (⟨(w : K) - percentOf (w : K) 1, 0, percentOf (w : K) 1, (h : K)⟩ : Rectangle K) = _
    rw [ep]
  · show (h : K) - percentOf (h : K) 1 + percentOf (h : K) 1 = (h : K)
    ring
  · show (w : K) - percentOf (w : K) 1 + percentOf (w : K) 1 = (w : K)
    ring

/-- C16: `toggleScoreboardMenuModes` flips between the two in-game modes only.
It maps `GAME_SCOREBOARD` to `GAME_DEBUG` and back, changes nothing else, twice
from an in-game mode gives the mode back, it never yields `MAINMENU`, and its
assertion fails exactly in the modes other than the two in-game ones (so in
`MAINMENU`). -/
theorem toggleScoreboardMenuModes_spec (ui : UI) :
    (ui.mode = Mode.GAME_SCOREBOARD →
        ui.toggleScoreboardMenuModes = .completed { ui with mode := Mode.GAME_DEBUG })
    ∧ (ui.mode = Mode.GAME_DEBUG →
        ui.toggleScoreboardMenuModes = .completed { ui with mode := Mode.GAME_SCOREBOARD })
    ∧ ((ui.mode = Mode.GAME_SCOREBOARD ∨ ui.mode = Mode.GAME_DEBUG) →
        ui.toggleScoreboardMenuModes.bind UI.toggleScoreboardMenuModes = .completed ui)
    ∧ (∀ r : UI, ui.toggleScoreboardMenuModes = .completed r → r.mode ≠ Mode.MAINMENU)
    ∧ ((∃ msg, ui.toggleScoreboardMenuModes = .assertFailed msg)
        ↔ (ui.mode ≠ Mode.GAME_SCOREBOARD ∧ ui.mode ≠ Mode.GAME_DEBUG))
    ∧ (ui.mode = Mode.MAINMENU → ∃ msg, ui.toggleScoreboardMenuModes = .assertFailed msg) := by
  obtain ⟨m, names⟩ := ui
  cases m <;>
    simp [UI.toggleScoreboardMenuModes, Outcome.bind]

/-- C14: paddle containment.  For a positive `width` and `height`, in every
state reachable from `PongGame(width, height)` and `initMatch()` through
`movePaddle` (either paddle, any `deltaY`), `startGame`, `step` and `initMatch`
calls, both paddles satisfy `0 ≤ rect.y` and `rect.y + rect.height ≤ courtHeight`. -/
theorem paddles_stay_in_court (lib : LibM K) (mem : PongGame K) (width height : Int)
    (g : PongGame K) (hw : 0 < width) (hh : 0 < height)
    (hr : Reachable lib mem width height g) :
    (0 ≤ g.leftPaddle.rect.y
      ∧ g.leftPaddle.rect.y + g.leftPaddle.rect.height ≤ (g.courtHeight : K))
    ∧ (0 ≤ g.rightPaddle.rect.y
      ∧ g.rightPaddle.rect.y + g.rightPaddle.rect.height ≤ (g.courtHeight : K)) := by
  have _hw := hw
  obtain ⟨-, -, -, hl, hr'⟩ := reachable_paddleInv lib mem width height g hh hr
  exact ⟨hl, hr'⟩

/-- Witness of C14: on the 1600 x 900 court, after a rally is started, a step of
1/120 s is made and the right paddle is asked to move up by 1000, both paddles
are inside the court. -/
theorem paddles_stay_in_court_witness :
    (0 ≤ (step (LibM.mk Real.sqrt Real.rpow) (1 / 120)
            (startGame (LibM.mk Real.sqrt Real.rpow) (-1) 0 mainWorld)).leftPaddle.rect.y
      ∧ (step (LibM.mk Real.sqrt Real.rpow) (1 / 120)
            (startGame (LibM.mk Real.sqrt Real.rpow) (-1) 0 mainWorld)).leftPaddle.rect.y
          + (step (LibM.mk Real.sqrt Real.rpow) (1 / 120)
            (startGame (LibM.mk Real.sqrt Real.rpow) (-1) 0 mainWorld)).leftPaddle.rect.height
          ≤ (((step (LibM.mk Real.sqrt Real.rpow) (1 / 120)
            (startGame (LibM.mk Real.sqrt Real.rpow) (-1) 0 mainWorld)).courtHeight : Int) : ℝ))
    ∧ (0 ≤ (movePaddle
            (step (LibM.mk Real.sqrt Real.rpow) (1 / 120)
              (startGame (LibM.mk Real.sqrt Real.rpow) (-1) 0 mainWorld))
            (step (LibM.mk Real.sqrt Real.rpow) (1 / 120)
              (startGame (LibM.mk Real.sqrt Real.rpow) (-1) 0 mainWorld)).rightPaddle
            (-1000)).rect.y
      ∧ (movePaddle
            (step (LibM.mk Real.sqrt Real.rpow) (1 / 120)
              (startGame (LibM.mk Real.sqrt Real.rpow) (-1) 0 mainWorld))
            (step (LibM.mk Real.sqrt Real.rpow) (1 / 120)
              (startGame (LibM.mk Real.sqrt Real.rpow) (-1) 0 mainWorld)).rightPaddle
            (-1000)).rect.y
          + (movePaddle
            (step (LibM.mk Real.sqrt Real.rpow) (1 / 120)
              (startGame (LibM.mk Real.sqrt Real.rpow) (-1) 0 mainWorld))
            (step (LibM.mk Real.sqrt Real.rpow) (1 / 120)
              (startGame (LibM.mk Real.sqrt Real.rpow) (-1) 0 mainWorld)).rightPaddle
            (-1000)).rect.height
          ≤ (((step (LibM.mk Real.sqrt Real.rpow) (1 / 120)
            (startGame (LibM.mk Real.sqrt Real.rpow) (-1) 0 mainWorld)).courtHeight : Int) : ℝ)) :=
  paddles_stay_in_court (LibM.mk Real.sqrt Real.rpow) zeroGame 1600 900 _ (by decide)
    (by decide)
    (Reachable.moveRight (-1000)
      (Reachable.step (1 / 120) (Reachable.startGame (-1) 0 Reachable.init)))

/-- C17: the rally state machine.  `startGame` leaves `gameStarted = true` and
the speed at `initialBallSpeed` and changes no score, no paddle and not the
ball centre; and in a running rally `gameStarted` is false after `step` exactly
when that step added one to a score counter, and true exactly when both
counters are what they were. -/
theorem rally_state_machine (lib : LibM K) (r1 r2 dt : K) (g : PongGame K) :
    ((startGame lib r1 r2 g).gameStarted = true
      ∧ (startGame lib r1 r2 g).ball.speed = g.initialBallSpeed
      ∧ (startGame lib r1 r2 g).rightPlayerScore = g.rightPlayerScore
      ∧ (startGame lib r1 r2 g).leftPlayerScore = g.leftPlayerScore
      ∧ (startGame lib r1 r2 g).leftPaddle = g.leftPaddle
      ∧ (startGame lib r1 r2 g).rightPaddle = g.rightPaddle
      ∧ (startGame lib r1 r2 g).ball.center = g.ball.center)
    ∧ (g.gameStarted = true →
        ((step lib dt g).gameStarted = false ↔
          ((step lib dt g).rightPlayerScore = g.rightPlayerScore + 1
            ∨ (step lib dt g).leftPlayerScore = g.leftPlayerScore + 1))
        ∧ ((step lib dt g).gameStarted = true ↔
          ((step lib dt g).rightPlayerScore = g.rightPlayerScore
            ∧ (step lib dt g).leftPlayerScore = g.leftPlayerScore))) := by
  refine ⟨⟨rfl, rfl, rfl, rfl, rfl, rfl, rfl⟩, fun hs => ?_⟩
  obtain ⟨sr, sl⟩ := step_scores lib dt g hs
  rw [step_gameStarted lib dt g hs, sr, sl]
  have e6 : (stepIntegrate lib dt g).rightPlayerScore = g.rightPlayerScore := rfl
  have e7 : (stepIntegrate lib dt g).leftPlayerScore = g.leftPlayerScore := rfl
  have e8 : (stepIntegrate lib dt g).gameStarted = true := hs
  rw [← e6, ← e7]
  generalize stepIntegrate lib dt g = g1 at e8
  rcases stepScore_outcome g1 with h | ⟨hf, h | h | h⟩
  · rw [h, e8]
    simp
  · rw [hf, h.1, h.2]
    simp
  · rw [hf, h.1, h.2]
    simp
  · rw [hf, h.1, h.2]
    simp

/-- Witness of C17: the step that takes the ball into the left collider on the
1600 x 900 court ends the rally, hence it has added one to a score counter. -/
theorem rally_state_machine_witness :
    (step (LibM.mk Real.sqrt Real.rpow) (1 / 100) rallyNearLeft).rightPlayerScore
        = (rallyNearLeft : PongGame ℝ).rightPlayerScore + 1
      ∨ (step (LibM.mk Real.sqrt Real.rpow) (1 / 100) rallyNearLeft).leftPlayerScore
        = (rallyNearLeft : PongGame ℝ).leftPlayerScore + 1 :=
  ((rally_state_machine (LibM.mk Real.sqrt Real.rpow) 0 0 (1 / 100) rallyNearLeft).2 rfl).1.mp
    (by
      norm_num [step, stepRamp, stepOpponent, stepCollide, stepScore, stepIntegrate,
        rallyNearLeft, normalize_left_unit, CheckCollisionCircleRec, mainWorld, initMatch,
        newPongGame, positionWalls, percentOf, calculateAiYPos, moveOpponentPaddleTowardsY,
        movePaddle, Wall.move, zeroGame])

/-- C18: bang-bang opponent movement.  With `c = rect.y + rect.height / 2` and
`speed ≥ 0`: when `c > targetY` the new `y` is `y - speed`, when `c < targetY`
it is `y + speed`, unless `movePaddle` puts the paddle back (then `y` is
unchanged); so the paddle moves by the full `speed` or not at all, whatever the
distance; `x`, `width` and `height` stay; and when the move is not put back and
`|c - targetY| ≥ speed` the centre ends no farther from `targetY` than it was. -/
theorem moveOpponent_bang_bang (g : PongGame K) (paddle : Wall K) (targetY speed : K)
    (hspeed : 0 ≤ speed) :
    (paddle.rect.y + paddle.rect.height / 2 > targetY →
      (moveOpponentPaddleTowardsY g paddle targetY speed).rect.y
        = (if 0 ≤ paddle.rect.y - speed
              ∧ paddle.rect.y - speed + paddle.rect.height ≤ (g.courtHeight : K)
            then paddle.rect.y - speed else paddle.rect.y))
    ∧ (paddle.rect.y + paddle.rect.height / 2 < targetY →
      (moveOpponentPaddleTowardsY g paddle targetY speed).rect.y
        = (if 0 ≤ paddle.rect.y + speed
              ∧ paddle.rect.y + speed + paddle.rect.height ≤ (g.courtHeight : K)
            then paddle.rect.y + speed else paddle.rect.y))
    ∧ ((moveOpponentPaddleTowardsY g paddle targetY speed).rect.y = paddle.rect.y - speed
        ∨ (moveOpponentPaddleTowardsY g paddle targetY speed).rect.y = paddle.rect.y + speed
        ∨ (moveOpponentPaddleTowardsY g paddle targetY speed).rect.y = paddle.rect.y)
    ∧ ((moveOpponentPaddleTowardsY g paddle targetY speed).rect.x = paddle.rect.x
        ∧ (moveOpponentPaddleTowardsY g paddle targetY speed).rect.width = paddle.rect.width
        ∧ (moveOpponentPaddleTowardsY g paddle targetY speed).rect.height = paddle.rect.height)
    ∧ (((paddle.rect.y + paddle.rect.height / 2 > targetY
            ∧ (moveOpponentPaddleTowardsY g paddle targetY speed).rect.y = paddle.rect.y - speed)
          ∨ (paddle.rect.y + paddle.rect.height / 2 ≤ targetY
            ∧ (moveOpponentPaddleTowardsY g paddle targetY speed).rect.y
                = paddle.rect.y + speed)) →
        |paddle.rect.y + paddle.rect.height / 2 - targetY| ≥ speed →
        |(moveOpponentPaddleTowardsY g paddle targetY speed).rect.y
            + (moveOpponentPaddleTowardsY g paddle targetY speed).rect.height / 2 - targetY|
          ≤ |paddle.rect.y + paddle.rect.height / 2 - targetY|) := by
  have hc : paddle.rect.y + 1 / 2 * paddle.rect.height
      = paddle.rect.y + paddle.rect.height / 2 := by ring
  have hheight : (moveOpponentPaddleTowardsY g paddle targetY speed).rect.height
      = paddle.rect.height := by
    unfold moveOpponentPaddleTowardsY
    dsimp only
    split_ifs <;> exact (movePaddle_rect g paddle _).2.2.2
  have hup : paddle.rect.y + paddle.rect.height / 2 > targetY →
      (moveOpponentPaddleTowardsY g paddle targetY speed).rect.y
        = (if 0 ≤ paddle.rect.y - speed
              ∧ paddle.rect.y - speed + paddle.rect.height ≤ (g.courtHeight : K)
            then paddle.rect.y - speed else paddle.rect.y) := by
    intro h
    unfold moveOpponentPaddleTowardsY
    dsimp only
    rw [hc, if_pos h, (movePaddle_rect g paddle (-speed)).1, ← sub_eq_add_neg]
  have hdown : ¬ paddle.rect.y + paddle.rect.height / 2 > targetY →
      (moveOpponentPaddleTowardsY g paddle targetY speed).rect.y
        = (if 0 ≤ paddle.rect.y + speed
              ∧ paddle.rect.y + speed + paddle.rect.height ≤ (g.courtHeight : K)
            then paddle.rect.y + speed else paddle.rect.y) := by
    intro h
    unfold moveOpponentPaddleTowardsY
    dsimp only
    rw [hc, if_neg h, (movePaddle_rect g paddle speed).1]
  refine ⟨hup, fun h => hdown (not_lt.mpr (le_of_lt h)), ?_, ?_, ?_⟩
  · by_cases h : paddle.rect.y + paddle.rect.height / 2 > targetY
    · rw [hup h]
      split_ifs
      · exact Or.inl rfl
      · exact Or.inr (Or.inr rfl)
    · rw [hdown h]
      split_ifs
      · exact Or.inr (Or.inl rfl)
      · exact Or.inr (Or.inr rfl)
  · refine ⟨?_, ?_, hheight⟩
    · unfold moveOpponentPaddleTowardsY
      dsimp only
      split_ifs <;> exact (movePaddle_rect g paddle _).2.1
    · unfold moveOpponentPaddleTowardsY
      dsimp only
      split_ifs <;> exact (movePaddle_rect g paddle _).2.2.1
  · intro hmoved hfar
    rw [hheight]
    rcases hmoved with ⟨hgt, hy⟩ | ⟨hle, hy⟩
    · rw [hy]
      have h1 : 0 < paddle.rect.y + paddle.rect.height / 2 - targetY := by linarith
      rw [abs_of_pos h1] at hfar ⊢
      rw [abs_of_nonneg (by linarith)]
      linarith
    · rw [hy]
      have h1 : paddle.rect.y + paddle.rect.height / 2 - targetY ≤ 0 := by linarith
      rw [abs_of_nonpos h1] at hfar ⊢
      rw [abs_of_nonpos (by linarith)]
      linarith

/-- Witness of C18: on the 1600 x 900 court the centred left paddle (centre 450)
aimed at height 200 with speed 5 moves up from 382.5 to 377.5. -/
theorem moveOpponent_bang_bang_witness :
    (moveOpponentPaddleTowardsY (mainWorld : PongGame ℚ) (mainWorld : PongGame ℚ).leftPaddle
        200 5).rect.y = 765 / 2 - 5 := by
  have h := (moveOpponent_bang_bang (mainWorld : PongGame ℚ)
    (mainWorld : PongGame ℚ).leftPaddle 200 5 (by norm_num)).1
    (by norm_num [mainWorld, initMatch, newPongGame, positionWalls, percentOf])
  rw [h]
  norm_num [mainWorld, initMatch, newPongGame, positionWalls, percentOf]

/-- C19: at most one point per tick, and scores never go down.  For a game
whose geometry and ball radius are those built by `PongGame(width, height)`
with positive `width` and `height`, `step` leaves the pair of scores
`(left, right)` as it was or adds one to exactly one of the two; and
`initMatch`, `startGame`, `movePaddle` (on either paddle) and `positionWalls`
change neither score. -/
theorem step_at_most_one_point (lib : LibM K) (mem g : PongGame K) (width height : Int)
    (dt r1 r2 y : K) (w h : Int) (hw : 0 < width) (hh : 0 < height)
    (hgeo : SameGeometry g (newPongGame mem width height)) :
    (((step lib dt g).leftPlayerScore = g.leftPlayerScore
          ∧ (step lib dt g).rightPlayerScore = g.rightPlayerScore)
      ∨ ((step lib dt g).leftPlayerScore = g.leftPlayerScore + 1
          ∧ (step lib dt g).rightPlayerScore = g.rightPlayerScore)
      ∨ ((step lib dt g).leftPlayerScore = g.leftPlayerScore
          ∧ (step lib dt g).rightPlayerScore = g.rightPlayerScore + 1))
    ∧ ((initMatch g).leftPlayerScore = g.leftPlayerScore
        ∧ (initMatch g).rightPlayerScore = g.rightPlayerScore)
    ∧ ((startGame lib r1 r2 g).leftPlayerScore = g.leftPlayerScore
        ∧ (startGame lib r1 r2 g).rightPlayerScore = g.rightPlayerScore)
    ∧ (({ g with rightPaddle := movePaddle g g.rightPaddle y } : PongGame K).leftPlayerScore
          = g.leftPlayerScore
        ∧ ({ g with rightPaddle := movePaddle g g.rightPaddle y } : PongGame K).rightPlayerScore
          = g.rightPlayerScore
        ∧ ({ g with leftPaddle := movePaddle g g.leftPaddle y } : PongGame K).leftPlayerScore
          = g.leftPlayerScore
        ∧ ({ g with leftPaddle := movePaddle g g.leftPaddle y } : PongGame K).rightPlayerScore
          = g.rightPlayerScore)
    ∧ ((positionWalls w h g).leftPlayerScore = g.leftPlayerScore
        ∧ (positionWalls w h g).rightPlayerScore = g.rightPlayerScore) := by
  have _hh := hh
  refine ⟨?_, ⟨rfl, rfl⟩, ⟨rfl, rfl⟩, ⟨rfl, rfl, rfl, rfl⟩, ⟨rfl, rfl⟩⟩
  by_cases hs : g.gameStarted = true
  · obtain ⟨hcw, hch, -, -, -, hr, -, -, -, -, -, -, hrad⟩ := hgeo
    rw [newPongGame_courtWidth] at hcw
    rw [newPongGame_courtHeight] at hch
    rw [newPongGame_rightCollider] at hr
    rw [newPongGame_radius] at hrad
    have hW : (0 : K) < (width : K) := by exact_mod_cast hw
    obtain ⟨sr, sl⟩ := step_scores lib dt g hs
    rw [sr, sl]
    exact stepScore_scores_built (stepIntegrate lib dt g) width height hW hrad hr hcw hch
  · rw [step_noop_of_not_started lib dt g (by simpa using hs)]
    exact Or.inl ⟨rfl, rfl⟩

/-- Witness of C19: on the 1600 x 900 court, the step that takes the ball into
the left collider changes the scores in one of the three permitted ways. -/
theorem step_at_most_one_point_witness :
    ((step (LibM.mk Real.sqrt Real.rpow) (1 / 100) rallyNearLeft).leftPlayerScore
          = (rallyNearLeft : PongGame ℝ).leftPlayerScore
        ∧ (step (LibM.mk Real.sqrt Real.rpow) (1 / 100) rallyNearLeft).rightPlayerScore
          = (rallyNearLeft : PongGame ℝ).rightPlayerScore)
      ∨ ((step (LibM.mk Real.sqrt Real.rpow) (1 / 100) rallyNearLeft).leftPlayerScore
          = (rallyNearLeft : PongGame ℝ).leftPlayerScore + 1
        ∧ (step (LibM.mk Real.sqrt Real.rpow) (1 / 100) rallyNearLeft).rightPlayerScore
          = (rallyNearLeft : PongGame ℝ).rightPlayerScore)
      ∨ ((step (LibM.mk Real.sqrt Real.rpow) (1 / 100) rallyNearLeft).leftPlayerScore
          = (rallyNearLeft : PongGame ℝ).leftPlayerScore
        ∧ (step (LibM.mk Real.sqrt Real.rpow) (1 / 100) rallyNearLeft).rightPlayerScore
          = (rallyNearLeft : PongGame ℝ).rightPlayerScore + 1) :=
  (step_at_most_one_point (LibM.mk Real.sqrt Real.rpow) zeroGame rallyNearLeft 1600 900
    (1 / 100) 0 0 0 1600 900 (by decide) (by decide) rallyNearLeft_geometry).1

/-- C15 (evaluation at the failing input): a game-loop frame that begins with
the scores 5 and 2 in mode `GAME_SCOREBOARD` and in which `G` is pressed stops
on the failed assertion of `toggleScoreboardMenuModes`, called in mode
`MAINMENU`; the same frame without `G` completes in mode `MAINMENU` with the
scores still 5 and 2. -/
theorem mainGameLoop_match_end_assertion :
    mainGameLoop (LibM.mk Real.sqrt Real.rpow)
        ⟨120, true, false, false, false, false, false, 0, 0⟩
        (UI.ofMode Mode.GAME_SCOREBOARD)
        { (mainWorld : PongGame ℝ) with leftPlayerScore := 5, rightPlayerScore := 2 }
      = .assertFailed "mode == GAME_SCOREBOARD || mode == GAME_DEBUG"
    ∧ mainGameLoop (LibM.mk Real.sqrt Real.rpow)
        ⟨120, false, false, false, false, false, false, 0, 0⟩
        (UI.ofMode Mode.GAME_SCOREBOARD)
        { (mainWorld : PongGame ℝ) with leftPlayerScore := 5, rightPlayerScore := 2 }
      = .completed (UI.ofMode Mode.MAINMENU,
          { (mainWorld : PongGame ℝ) with leftPlayerScore := 5, rightPlayerScore := 2 }) := by
  constructor
  · simp [mainGameLoop, UI.toggleScoreboardMenuModes, UI.ofMode, Outcome.bind]
  · simp [mainGameLoop, Outcome.bind, step, mainWorld, initMatch]

/-- C20 (evaluation at the failing input): in the first menu frame, with
`currentChoice = 0`, pressing `UP` and `ENTER` together takes `currentChoice`
to -1 before the `switch`, and the frame stops on `assert( 0 && "Invalid option" )`;
so does a frame with `DOWN` and `ENTER` when `currentChoice = 1`. -/
theorem mainMenuLoop_invalid_option_reached :
    mainMenuLoop ⟨false, false, true, true, false⟩ 0 (UI.ofMode Mode.MAINMENU)
        (mainWorld : PongGame ℚ)
      = .assertFailed "Invalid option"
    ∧ mainMenuLoop ⟨false, true, false, true, false⟩ 1 (UI.ofMode Mode.MAINMENU)
        (mainWorld : PongGame ℚ)
      = .assertFailed "Invalid option" := by
  constructor <;> simp [mainMenuLoop, Outcome.bind]

end Pong
